import Mathlib

/-!
# Dynamixel serial controller: packet framing, CRC and write sequencing

A shallow embedding of `dynamixel_run/src/dynamixel_run.cpp`.

* Bytes (`uint8_t`) and 16-bit words (`uint16_t`) are natural numbers; every
  place where the C++ code converts to a narrower unsigned type is an explicit
  `% 2 ^ w`.
* The cached registers (`int32_t`) are integers; `>>` on them is the
  arithmetic shift and `& 0xFF` is `Int.land`.
* Fixed-size C arrays are lists; every indexed read or write is checked and
  an out-of-range index makes the enclosing function stop with a fault.
* Effects (`serial_.write`, `sleep_for`, the log macros, `rclcpp::shutdown`)
  are appended to a trace in program order.
-/

namespace Dynamixel

/-! ## The frame check sequence -/

/-- The `static const uint16_t crc_table[256]` of `update_crc`, entry for
entry in source order. -/
def crc_table : List Nat :=
  [
   0x0000, 0x8005, 0x800F, 0x000A, 0x801B, 0x001E, 0x0014, 0x8011,
   0x8033, 0x0036, 0x003C, 0x8039, 0x0028, 0x802D, 0x8027, 0x0022,
   0x8063, 0x0066, 0x006C, 0x8069, 0x0078, 0x807D, 0x8077, 0x0072,
   0x0050, 0x8055, 0x805F, 0x005A, 0x804B, 0x004E, 0x0044, 0x8041,
   0x80C3, 0x00C6, 0x00CC, 0x80C9, 0x00D8, 0x80DD, 0x80D7, 0x00D2,
   0x00F0, 0x80F5, 0x80FF, 0x00FA, 0x80EB, 0x00EE, 0x00E4, 0x80E1,
   0x00A0, 0x80A5, 0x80AF, 0x00AA, 0x80BB, 0x00BE, 0x00B4, 0x80B1,
   0x8093, 0x0096, 0x009C, 0x8099, 0x0088, 0x808D, 0x8087, 0x0082,
   0x8183, 0x0186, 0x018C, 0x8189, 0x0198, 0x819D, 0x8197, 0x0192,
   0x01B0, 0x81B5, 0x81BF, 0x01BA, 0x81AB, 0x01AE, 0x01A4, 0x81A1,
   0x01E0, 0x81E5, 0x81EF, 0x01EA, 0x81FB, 0x01FE, 0x01F4, 0x81F1,
   0x81D3, 0x01D6, 0x01DC, 0x81D9, 0x01C8, 0x81CD, 0x81C7, 0x01C2,
   0x0140, 0x8145, 0x814F, 0x014A, 0x815B, 0x015E, 0x0154, 0x8151,
   0x8173, 0x0176, 0x017C, 0x8179, 0x0168, 0x816D, 0x8167, 0x0162,
   0x8123, 0x0126, 0x012C, 0x8129, 0x0138, 0x813D, 0x8137, 0x0132,
   0x0110, 0x8115, 0x811F, 0x011A, 0x810B, 0x010E, 0x0104, 0x8101,
   0x8303, 0x0306, 0x030C, 0x8309, 0x0318, 0x831D, 0x8317, 0x0312,
   0x0330, 0x8335, 0x833F, 0x033A, 0x832B, 0x032E, 0x0324, 0x8321,
   0x0360, 0x8365, 0x836F, 0x036A, 0x837B, 0x037E, 0x0374, 0x8371,
   0x8353, 0x0356, 0x035C, 0x8359, 0x0348, 0x834D, 0x8347, 0x0342,
   0x03C0, 0x83C5, 0x83CF, 0x03CA, 0x83DB, 0x03DE, 0x03D4, 0x83D1,
   0x83F3, 0x03F6, 0x03FC, 0x83F9, 0x03E8, 0x83ED, 0x83E7, 0x03E2,
   0x83A3, 0x03A6, 0x03AC, 0x83A9, 0x03B8, 0x83BD, 0x83B7, 0x03B2,
   0x0390, 0x8395, 0x839F, 0x039A, 0x838B, 0x038E, 0x0384, 0x8381,
   0x0280, 0x8285, 0x828F, 0x028A, 0x829B, 0x029E, 0x0294, 0x8291,
   0x82B3, 0x02B6, 0x02BC, 0x82B9, 0x02A8, 0x82AD, 0x82A7, 0x02A2,
   0x82E3, 0x02E6, 0x02EC, 0x82E9, 0x02F8, 0x82FD, 0x82F7, 0x02F2,
   0x02D0, 0x82D5, 0x82DF, 0x02DA, 0x82CB, 0x02CE, 0x02C4, 0x82C1,
   0x8243, 0x0246, 0x024C, 0x8249, 0x0258, 0x825D, 0x8257, 0x0252,
   0x0270, 0x8275, 0x827F, 0x027A, 0x826B, 0x026E, 0x0264, 0x8261,
   0x0220, 0x8225, 0x822F, 0x022A, 0x823B, 0x023E, 0x0234, 0x8231,
   0x8213, 0x0216, 0x021C, 0x8219, 0x0208, 0x820D, 0x8207, 0x0202
  ]

/-- The body of the `for (j = 0; j < data_blk_size; j++)` loop of `update_crc`,
with `n` iterations still to run, the loop counter at `j` and the accumulator
at `crc_accum`.  `data_blk_ptr[j]` and `crc_table[i]` are checked reads.
`j` is a `uint16_t`; it is only incremented while below `data_blk_size`,
itself a `uint16_t`, so the increment never wraps. -/
def update_crc_loop (data_blk_ptr : List Nat) : Nat → Nat → Nat → Option Nat
  | 0, _, crc_accum => some crc_accum
  | n + 1, j, crc_accum =>
    match data_blk_ptr[j]? with
    | none => none
    | some b =>
      let i := ((((crc_accum >>> 8) % 2 ^ 16) ^^^ b) &&& 0xFF) % 2 ^ 16
      match crc_table[i]? with
      | none => none
      | some t => update_crc_loop data_blk_ptr n (j + 1) (((crc_accum <<< 8) ^^^ t) % 2 ^ 16)

/-- The function `update_crc(crc_accum, data_blk_ptr, data_blk_size)`.  The
two scalar parameters are `uint16_t`, so the arguments are reduced modulo
`2 ^ 16` on entry; the result is the accumulator after `data_blk_size`
iterations, or `none` when an array was read out of range. -/
def update_crc (crc_accum : Nat) (data_blk_ptr : List Nat) (data_blk_size : Nat) : Option Nat :=
  update_crc_loop data_blk_ptr (data_blk_size % 2 ^ 16) 0 (crc_accum % 2 ^ 16)


/-! ## Effects and the controller state -/

/-- An observable effect of the program, in the order the statements run. -/
inductive Event where
  /-- The call `serial_.write(buf, n)` returned; `data` is `buf[0..n)`. -/
  | write (data : List Nat)
  /-- The call `serial_.write(buf, n)` raised an exception; `data` is `buf[0..n)`. -/
  | write_raised (data : List Nat)
  /-- The call `std::this_thread::sleep_for(std::chrono::milliseconds(ms))`. -/
  | sleep (ms : Nat)
  /-- The macro `RCLCPP_INFO(logger, fmt, args...)`. -/
  | info (fmt : String) (args : List Int)
  /-- The macro `RCLCPP_ERROR(logger, fmt)`. -/
  | error (fmt : String)
  /-- The call `rclcpp::shutdown()` inside the constructor. -/
  | shutdown
  deriving DecidableEq, Repr

/-- What the program cannot control.  `serial_.open()` either raises
`serial::IOException` or returns, after which `serial_.isOpen()` reports
`is_open`.  Each call of `serial_.write` either returns or raises, as a
function of everything that happened before it; the byte count it returns is
discarded by every caller and is not modelled.  The members `acc_`, `vel_`,
`pos_` are declared `int32_t acc_, vel_, pos_;` with no initialiser and the
constructor never assigns them, so their values at construction are whatever
the storage holds: `acc_storage`, `vel_storage`, `pos_storage`. -/
structure Env where
  open_raises : Bool
  is_open : Bool
  write_returns : List Event → Bool
  acc_storage : Int
  vel_storage : Int
  pos_storage : Int

/-- The data members of the class together with the trace of effects so far.
`subscribed` records that `acc_sub_`, `vel_sub_`, `pos_sub_` were created. -/
structure State where
  acc_ : Int
  vel_ : Int
  pos_ : Int
  subscribed : Bool
  trace : List Event
  deriving DecidableEq, Repr

/-- How a member function ends: it returns, an exception leaves it (nothing
in the program catches the exceptions of `serial_.write`), or it indexes an
array out of range.  Each case carries the state reached. -/
inductive Run where
  | returned (s : State)
  | raised (s : State)
  | fault (s : State)
  deriving DecidableEq, Repr

/-- Sequencing of statements: the continuation runs only after a normal return. -/
def Run.andThen (r : Run) (f : State → Run) : Run :=
  match r with
  | .returned s => f s
  | .raised s => .raised s
  | .fault s => .fault s

/-- The state in which a run ended. -/
def Run.state : Run → State
  | .returned s => s
  | .raised s => s
  | .fault s => s

/-- Append one effect to the trace. -/
def emit (e : Event) (s : State) : State :=
  { s with trace := s.trace ++ [e] }

/-- The assignment `buf[k] = v` on a fixed-size array, `none` when `k` is out of range. -/
def store (buf : List Nat) (k v : Nat) : Option (List Nat) :=
  if k < buf.length then some (buf.set k v) else none

/-- Conversion of an `int` to `uint8_t`. -/
def to_uint8 (x : Int) : Nat :=
  (x % 2 ^ 8).toNat

/-- The call `serial_.write(buf, size)`: hands `buf[0..size)` to the transport. -/
def serial_write (env : Env) (buf : List Nat) (size : Nat) (s : State) : Run :=
  if size ≤ buf.length then
    if env.write_returns s.trace then .returned (emit (.write (buf.take size)) s)
    else .raised (emit (.write_raised (buf.take size)) s)
  else .fault s

/-- Continue with a buffer once it is built; when building it indexed an
array out of range the function stops there with a fault. -/
def with_buffer (built : Option (List Nat)) (s : State) (k : List Nat → Run) : Run :=
  match built with
  | none => .fault s
  | some buffer => k buffer

/-- The bytes of all completed `serial_.write` calls of a trace, in order. -/
def writes : List Event → List (List Nat)
  | [] => []
  | .write data :: rest => data :: writes rest
  | _ :: rest => writes rest

/-! ## The initialization writes -/

/-- The function `sendTorqueDisable()`. -/
def sendTorqueDisable (env : Env) (s : State) : Run :=
  let torque_buffer : List Nat :=
    [0xFF, 0xFF, 0xFD, 0x00, 0x00, 0x06, 0x00, 0x03, 0x40, 0x00, 0x00, 0, 0, 0]
  let built : Option (List Nat) := do
    let torque_crc ← update_crc 0 torque_buffer 11
    let torque_buffer ← store torque_buffer 11 ((torque_crc &&& 0xFF) % 2 ^ 8)
    store torque_buffer 12 (((torque_crc >>> 8) &&& 0xFF) % 2 ^ 8)
  with_buffer built s fun torque_buffer =>
    (serial_write env torque_buffer 13 s).andThen fun s =>
    .returned (emit (.info "Torque disabled" []) (emit (.sleep 100) s))

/-- The function `setDriveMode()`. -/
def setDriveMode (env : Env) (s : State) : Run :=
  let drive_buffer : List Nat :=
    [0xFF, 0xFF, 0xFD, 0x00, 0x00, 0x06, 0x00, 0x03, 0x0A, 0x00, 0x00, 0, 0, 0]
  let built : Option (List Nat) := do
    let drive_crc ← update_crc 0 drive_buffer 11
    let drive_buffer ← store drive_buffer 11 ((drive_crc &&& 0xFF) % 2 ^ 8)
    store drive_buffer 12 (((drive_crc >>> 8) &&& 0xFF) % 2 ^ 8)
  with_buffer built s fun drive_buffer =>
    (serial_write env drive_buffer 13 s).andThen fun s =>
    .returned (emit (.info "Drive mode set" []) (emit (.sleep 100) s))

/-- The function `setOperatingMode()`. -/
def setOperatingMode (env : Env) (s : State) : Run :=
  let mode_buffer : List Nat :=
    [0xFF, 0xFF, 0xFD, 0x00, 0x00, 0x06, 0x00, 0x03, 0x0B, 0x00, 0x04, 0, 0, 0]
  let built : Option (List Nat) := do
    let mode_crc ← update_crc 0 mode_buffer 11
    let mode_buffer ← store mode_buffer 11 ((mode_crc &&& 0xFF) % 2 ^ 8)
    store mode_buffer 12 (((mode_crc >>> 8) &&& 0xFF) % 2 ^ 8)
  with_buffer built s fun mode_buffer =>
    (serial_write env mode_buffer 13 s).andThen fun s =>
    .returned
      (emit (.info "Operating mode set to Extended Position Control" []) (emit (.sleep 100) s))

/-- The function `sendTorqueEnable()`. -/
def sendTorqueEnable (env : Env) (s : State) : Run :=
  let torque_buffer : List Nat :=
    [0xFF, 0xFF, 0xFD, 0x00, 0x00, 0x06, 0x00, 0x03, 0x40, 0x00, 0x01, 0, 0, 0]
  let built : Option (List Nat) := do
    let torque_crc ← update_crc 0 torque_buffer 11
    let torque_buffer ← store torque_buffer 11 ((torque_crc &&& 0xFF) % 2 ^ 8)
    store torque_buffer 12 (((torque_crc >>> 8) &&& 0xFF) % 2 ^ 8)
  with_buffer built s fun torque_buffer =>
    (serial_write env torque_buffer 13 s).andThen fun s =>
    .returned (emit (.info "Torque enabled" []) (emit (.sleep 100) s))

/-! ## The update burst -/

/-- Lines 130-137 and their two copies in `updateDynamixel()`: the 16-byte
buffer initialised with ten bytes (the rest zero), the four value bytes stored
at 10..13, and the two CRC bytes stored at 14 and 15.  `initial` is the
brace-initialised array and `value` the cached register. -/
def motion_buffer (initial : List Nat) (value : Int) : Option (List Nat) := do
  let buffer ← store initial 10 (to_uint8 (Int.land value 0xFF))
  let buffer ← store buffer 11 (to_uint8 (Int.land (Int.shiftRight value 8) 0xFF))
  let buffer ← store buffer 12 (to_uint8 (Int.land (Int.shiftRight value 16) 0xFF))
  let buffer ← store buffer 13 (to_uint8 (Int.land (Int.shiftRight value 24) 0xFF))
  let crc ← update_crc 0 buffer 14
  let buffer ← store buffer 14 ((crc &&& 0xFF) % 2 ^ 8)
  store buffer 15 (((crc >>> 8) &&& 0xFF) % 2 ^ 8)

/-- The function `updateDynamixel()`. -/
def updateDynamixel (env : Env) (s : State) : Run :=
  let acceleration_buffer :=
    motion_buffer [0xFF, 0xFF, 0xFD, 0x00, 0x00, 0x09, 0x00, 0x03, 0x6C, 0x00, 0, 0, 0, 0, 0, 0]
      s.acc_
  with_buffer acceleration_buffer s fun acceleration_buffer =>
  (serial_write env acceleration_buffer 16 s).andThen fun s =>
  let s := emit (.sleep 20) s
  let velocity_buffer :=
    motion_buffer [0xFF, 0xFF, 0xFD, 0x00, 0x00, 0x09, 0x00, 0x03, 0x70, 0x00, 0, 0, 0, 0, 0, 0]
      s.vel_
  with_buffer velocity_buffer s fun velocity_buffer =>
  (serial_write env velocity_buffer 16 s).andThen fun s =>
  let s := emit (.sleep 20) s
  let position_buffer :=
    motion_buffer [0xFF, 0xFF, 0xFD, 0x00, 0x00, 0x09, 0x00, 0x03, 0x74, 0x00, 0, 0, 0, 0, 0, 0]
      s.pos_
  with_buffer position_buffer s fun position_buffer =>
  (serial_write env position_buffer 16 s).andThen fun s =>
  .returned (emit (.sleep 20) s)

/-! ## Notifications, construction and the process -/

/-- The function `acc_callback(msg)`, with `data` standing for `msg->data`. -/
def acc_callback (env : Env) (data : Int) (s : State) : Run :=
  updateDynamixel env { s with acc_ := data }

/-- The function `vel_callback(msg)`. -/
def vel_callback (env : Env) (data : Int) (s : State) : Run :=
  updateDynamixel env { s with vel_ := data }

/-- The function `pos_callback(msg)`. -/
def pos_callback (env : Env) (data : Int) (s : State) : Run :=
  let s := { s with pos_ := data }
  let s := emit (.info "Received position command: %d" [s.pos_]) s
  updateDynamixel env s

/-- The constructor `DynamixelController()`. -/
def DynamixelController (env : Env) : Run :=
  let s : State :=
    { acc_ := env.acc_storage, vel_ := env.vel_storage, pos_ := env.pos_storage,
      subscribed := false, trace := [] }
  if env.open_raises then
    .returned (emit .shutdown (emit (.error "Unable to open port") s))
  else if env.is_open then
    let s := emit (.info "Serial port opened successfully" []) s
    let s := { s with subscribed := true }
    (sendTorqueDisable env s).andThen fun s =>
    (setDriveMode env s).andThen fun s =>
    (setOperatingMode env s).andThen fun s =>
    (sendTorqueEnable env s).andThen fun s =>
    .returned (emit (.info "Dynamixel initialization completed" []) s)
  else
    .returned (emit .shutdown (emit (.error "Failed to open serial port") s))

/-- A notification on `acc_topic`, `vel_topic` or `pos_topic`. -/
inductive Msg where
  | acc (data : Int)
  | vel (data : Int)
  | pos (data : Int)
  deriving DecidableEq, Repr

/-- The callback bound to the topic of a notification. -/
def dispatch (env : Env) (m : Msg) (s : State) : Run :=
  match m with
  | .acc data => acc_callback env data s
  | .vel data => vel_callback env data s
  | .pos data => pos_callback env data s

/-- The call `rclcpp::spin(node)` over the notifications that arrive, in
arrival order: the single-threaded executor runs one callback to completion
before the next, and only the subscriptions the constructor created receive
anything. -/
def spin (env : Env) : List Msg → State → Run
  | [], s => .returned s
  | m :: rest, s =>
    if s.subscribed then (dispatch env m s).andThen (spin env rest) else .returned s

/-- The function `main`: construct the node, then spin. -/
def main (env : Env) (msgs : List Msg) : Run :=
  (DynamixelController env).andThen (spin env msgs)

/-! ## Reference definitions used in the statements -/

/-- One iteration of the loop of `update_crc` as a total function on the
accumulator: the table read falls back to `0` outside the table, which never
happens because the index is masked with `0xFF`. -/
def crc_step (crc_accum b : Nat) : Nat :=
  ((crc_accum <<< 8) ^^^
    crc_table.getD (((((crc_accum >>> 8) % 2 ^ 16) ^^^ b) &&& 0xFF) % 2 ^ 16) 0) % 2 ^ 16

/-- The accumulator after running `crc_step` over a whole byte list. -/
def crc_fold (crc_accum : Nat) (msg : List Nat) : Nat :=
  msg.foldl crc_step crc_accum

/-- The loop body of the specification's CRC algorithm, on an unbounded
accumulator: `i = ((crc >> 8) XOR b) & 0xFF`, `crc = (crc << 8) XOR table[i]`. -/
def reference_step (crc b : Nat) : Nat :=
  (crc <<< 8) ^^^ crc_table.getD (((crc >>> 8) ^^^ b) &&& 0xFF) 0

/-- The specification's CRC algorithm: start from `0`, run `reference_step`
over every byte, and return `crc & 0xFFFF`. -/
def reference_crc (msg : List Nat) : Nat :=
  (msg.foldl reference_step 0) &&& 0xFFFF

/-- The four bytes of the 32-bit two's-complement representation of `v`,
least significant first. -/
def le_bytes32 (v : Int) : List Nat :=
  let u := (v % 2 ^ 32).toNat
  [u % 256, u / 2 ^ 8 % 256, u / 2 ^ 16 % 256, u / 2 ^ 24 % 256]

/-- The first 14 bytes of a motion-register write: header, id, length 9,
instruction 3, the address low and high byte, and the value. -/
def motion_header (address : Nat) (v : Int) : List Nat :=
  [0xFF, 0xFF, 0xFD, 0x00, 0x00, 0x09, 0x00, 0x03, address, 0x00] ++ le_bytes32 v

/-- A motion-register write: its first 14 bytes followed by the low and the
high byte of the 16-bit word `crc`. -/
def motion_frame (address : Nat) (v : Int) (crc : Nat) : List Nat :=
  motion_header address v ++ [crc % 256, crc / 256 % 256]

/-- The first 11 bytes of a one-byte register write. -/
def config_header (address value : Nat) : List Nat :=
  [0xFF, 0xFF, 0xFD, 0x00, 0x00, 0x06, 0x00, 0x03, address, 0x00, value]

/-- A one-byte register write: its first 11 bytes followed by the low and the
high byte of the 16-bit word `crc`. -/
def config_frame (address value crc : Nat) : List Nat :=
  config_header address value ++ [crc % 256, crc / 256 % 256]

/-- The trace of a construction whose port opens and whose writes all return. -/
def init_trace : List Event :=
  [.info "Serial port opened successfully" [],
   .write (config_frame 0x40 0x00 0x67CD), .sleep 100, .info "Torque disabled" [],
   .write (config_frame 0x0A 0x00 0xE246), .sleep 100, .info "Drive mode set" [],
   .write (config_frame 0x0B 0x04 0xE24A), .sleep 100,
   .info "Operating mode set to Extended Position Control" [],
   .write (config_frame 0x40 0x01 0xE7C8), .sleep 100, .info "Torque enabled" [],
   .info "Dynamixel initialization completed" []]

/-- One bit of the bit-by-bit CRC on a 16-bit register: shift left by one and,
if the bit shifted out was 1, XOR with the polynomial `0x8005`. -/
def poly_step (x : Nat) : Nat :=
  if x.testBit 15 then ((x <<< 1) % 2 ^ 16) ^^^ 0x8005 else (x <<< 1) % 2 ^ 16

/-- Runs `poly_step` `k` times. -/
def poly_steps : Nat → Nat → Nat
  | 0, x => x
  | k + 1, x => poly_steps k (poly_step x)

/-- The table entry the polynomial generates for index `i`: eight steps
starting from `i << 8`. -/
def generated_entry (i : Nat) : Nat :=
  poly_steps 8 (i <<< 8)

/-- The bit-by-bit CRC-16 with polynomial `0x8005`, initial value `0`, most
significant bit first, no final XOR: each byte is XORed into the high byte of
the register, which is then shifted eight times. -/
def bitwise_crc (msg : List Nat) : Nat :=
  msg.foldl (fun crc b => poly_steps 8 (crc ^^^ (b <<< 8))) 0

/-- Four bytes read as a little-endian signed 32-bit integer. -/
def decode_le_i32 (bytes : List Nat) : Int :=
  let u : Nat :=
    bytes.getD 0 0 + 2 ^ 8 * bytes.getD 1 0 + 2 ^ 16 * bytes.getD 2 0 + 2 ^ 24 * bytes.getD 3 0
  if u < 2 ^ 31 then (u : Int) else (u : Int) - 2 ^ 32

/-- An environment in which the port opens, every write returns and the
storage of the three registers happens to hold zeros. -/
def quiet_env : Env :=
  { open_raises := false, is_open := true, write_returns := fun _ => true,
    acc_storage := 0, vel_storage := 0, pos_storage := 0 }

/-- A constructed controller with an empty trace and the given registers. -/
def idle_state (acc vel pos : Int) : State :=
  { acc_ := acc, vel_ := vel, pos_ := pos, subscribed := true, trace := [] }

/-- The register value carried by a write: the bytes after the ten bytes of
header, id, length, instruction and address, without the two CRC bytes. -/
def payload (p : List Nat) : List Nat :=
  (p.drop 10).dropLast.dropLast

/-- The value of the little-endian 16-bit length field, bytes 5 and 6. -/
def length_field (p : List Nat) : Nat :=
  p.getD 5 0 + 256 * p.getD 6 0

/-- An environment like `quiet_env` in which the storage of `acc_` holds 1. -/
def stale_env : Env :=
  { open_raises := false, is_open := true, write_returns := fun _ => true,
    acc_storage := 1, vel_storage := 0, pos_storage := 0 }

/-- The goal-position write for the value 100000. -/
def goal_position_100000 : List Nat :=
  [0xFF, 0xFF, 0xFD, 0x00, 0x00, 0x09, 0x00, 0x03, 0x74, 0x00, 0xA0, 0x86, 0x01, 0x00, 0xBD, 0xE5]

/-- The motion-register write the program builds for `address` and `v`: the
first 14 bytes followed by the two bytes of their CRC. -/
def sent_frame (address : Nat) (v : Int) : List Nat :=
  motion_frame address v (crc_fold 0 (motion_header address v))

/-- The effects of a complete update burst for the registers of `s`. -/
def burst_events (s : State) : List Event :=
  [.write (sent_frame 0x6C s.acc_), .sleep 20,
   .write (sent_frame 0x70 s.vel_), .sleep 20,
   .write (sent_frame 0x74 s.pos_), .sleep 20]

/-- The effects of an update burst whose write number `k` (counted from 0)
raises: the writes before it with their sleeps, then the raising call. -/
def cut_burst_events (s : State) : Nat → List Event
  | 0 => [.write_raised (sent_frame 0x6C s.acc_)]
  | 1 => [.write (sent_frame 0x6C s.acc_), .sleep 20, .write_raised (sent_frame 0x70 s.vel_)]
  | _ =>
    [.write (sent_frame 0x6C s.acc_), .sleep 20,
     .write (sent_frame 0x70 s.vel_), .sleep 20, .write_raised (sent_frame 0x74 s.pos_)]

/-- The trace of a construction whose port opens and whose write number `k`
(counted from 0) raises. -/
def cut_init_trace : Nat → List Event
  | 0 =>
    [.info "Serial port opened successfully" [],
     .write_raised (config_frame 0x40 0x00 0x67CD)]
  | 1 =>
    [.info "Serial port opened successfully" [],
     .write (config_frame 0x40 0x00 0x67CD), .sleep 100, .info "Torque disabled" [],
     .write_raised (config_frame 0x0A 0x00 0xE246)]
  | 2 =>
    [.info "Serial port opened successfully" [],
     .write (config_frame 0x40 0x00 0x67CD), .sleep 100, .info "Torque disabled" [],
     .write (config_frame 0x0A 0x00 0xE246), .sleep 100, .info "Drive mode set" [],
     .write_raised (config_frame 0x0B 0x04 0xE24A)]
  | _ =>
    [.info "Serial port opened successfully" [],
     .write (config_frame 0x40 0x00 0x67CD), .sleep 100, .info "Torque disabled" [],
     .write (config_frame 0x0A 0x00 0xE246), .sleep 100, .info "Drive mode set" [],
     .write (config_frame 0x0B 0x04 0xE24A), .sleep 100,
     .info "Operating mode set to Extended Position Control" [],
     .write_raised (config_frame 0x40 0x01 0xE7C8)]

/-- Whether a run ended by indexing an array out of range. -/
def Run.is_fault : Run → Bool
  | .fault _ => true
  | _ => false

/-- Whether an effect is an error line of the program's log (`RCLCPP_ERROR`),
the only statement with which the program itself reports a failure. -/
def Event.is_error : Event → Bool
  | .error _ => true
  | _ => false

/-- Whether a run ended with an exception leaving the function. -/
def Run.is_raised : Run → Bool
  | .raised _ => true
  | _ => false

/-- The controller right after the constructor body ran, with the registers
holding what their storage held. -/
def constructed (env : Env) (subscribed : Bool) (trace : List Event) : State :=
  { acc_ := env.acc_storage, vel_ := env.vel_storage, pos_ := env.pos_storage,
    subscribed := subscribed, trace := trace }

/-- The four packets of the initialization, in program order. -/
def init_frames : List (List Nat) :=
  [config_frame 0x40 0x00 0x67CD, config_frame 0x0A 0x00 0xE246,
   config_frame 0x0B 0x04 0xE24A, config_frame 0x40 0x01 0xE7C8]

/-- An environment in which the port opens and every write raises. -/
def deaf_env : Env :=
  { open_raises := false, is_open := true, write_returns := fun _ => false,
    acc_storage := 0, vel_storage := 0, pos_storage := 0 }

/-- An environment in which the port opens and the transport accepts four
writes, after which every write raises. -/
def flaky_env : Env :=
  { open_raises := false, is_open := true,
    write_returns := fun t => decide ((writes t).length < 4),
    acc_storage := 0, vel_storage := 0, pos_storage := 0 }

/-- The state a callback hands to `updateDynamixel`: the assignment
`acc_ = msg->data`, `vel_ = msg->data` or `pos_ = msg->data`, and for the
position the log line that follows it. -/
def assigned (m : Msg) (s : State) : State :=
  match m with
  | .acc data => { s with acc_ := data }
  | .vel data => { s with vel_ := data }
  | .pos data => emit (.info "Received position command: %d" [data]) { s with pos_ := data }

/-- The cached triple `(acc, vel, pos)` after a notification. -/
def next_registers (r : Int × Int × Int) : Msg → Int × Int × Int
  | .acc data => (data, r.2.1, r.2.2)
  | .vel data => (r.1, data, r.2.2)
  | .pos data => (r.1, r.2.1, data)

/-- The packets of one complete burst per notification, in arrival order,
starting from the cached triple `r`. -/
def bursts : Int × Int × Int → List Msg → List (List Nat)
  | _, [] => []
  | r, m :: rest =>
    [sent_frame 0x6C (next_registers r m).1, sent_frame 0x70 (next_registers r m).2.1,
      sent_frame 0x74 (next_registers r m).2.2] ++ bursts (next_registers r m) rest

/-- Whether a packet addresses a motion register: byte 8 is `0x6C`, `0x70` or `0x74`. -/
def is_motion_write (p : List Nat) : Bool :=
  p.getD 8 0 == 0x6C || p.getD 8 0 == 0x70 || p.getD 8 0 == 0x74

/-- Whether a packet addresses a configuration register: byte 8 is `0x40`,
`0x0A` or `0x0B`. -/
def is_config_write (p : List Nat) : Bool :=
  p.getD 8 0 == 0x40 || p.getD 8 0 == 0x0A || p.getD 8 0 == 0x0B

/-- The sequence `m` with bit `j` of the byte at index `i` inverted. -/
def flip_bit (m : List Nat) (i j : Nat) : List Nat :=
  m.set i (m.getD i 0 ^^^ 2 ^ j)

set_option maxRecDepth 100000

/-! ## Lemmas on `update_crc` -/

theorem crc_table_length : crc_table.length = 256 := by decide

theorem crc_index_lt (x b : Nat) : ((x ^^^ b) &&& 0xFF) % 2 ^ 16 < 256 := by
  have h : (x ^^^ b) &&& 0xFF = (x ^^^ b) % 2 ^ 8 := Nat.and_pow_two_sub_one_eq_mod _ 8
  rw [h]
  have := Nat.mod_lt (x ^^^ b) (show 0 < 2 ^ 8 by norm_num)
  omega

theorem crc_step_lt (c b : Nat) : crc_step c b < 2 ^ 16 :=
  Nat.mod_lt _ (by norm_num)

theorem crc_fold_lt (msg : List Nat) : ∀ c : Nat, c < 2 ^ 16 → crc_fold c msg < 2 ^ 16 := by
  induction msg with
  | nil => intro c hc; exact hc
  | cons b rest ih => intro c _; exact ih _ (crc_step_lt c b)

theorem update_crc_loop_eq (data : List Nat) :
    ∀ (n j c : Nat), j + n ≤ data.length →
      update_crc_loop data n j c = some (crc_fold c ((data.drop j).take n)) := by
  intro n
  induction n with
  | zero => intro j c _; simp [update_crc_loop, crc_fold]
  | succ n ih =>
    intro j c h
    have hj : j < data.length := by omega
    have hi := crc_index_lt ((c >>> 8) % 2 ^ 16) (data[j])
    have hi2 : ((((c >>> 8) % 2 ^ 16) ^^^ data[j]) &&& 0xFF) % 2 ^ 16 < crc_table.length := by
      rw [crc_table_length]; exact hi
    rw [update_crc_loop, List.getElem?_eq_getElem hj]
    simp only []
    rw [List.getElem?_eq_getElem hi2]
    simp only []
    rw [ih (j + 1) _ (by omega)]
    rw [List.drop_eq_getElem_cons hj, List.take_succ_cons]
    simp only [crc_fold, List.foldl_cons, crc_step]
    rw [List.getD_eq_getElem _ _ hi2]

theorem update_crc_eq_fold (c : Nat) (data : List Nat) (n : Nat)
    (hn : n < 2 ^ 16) (hlen : n ≤ data.length) :
    update_crc c data n = some (crc_fold (c % 2 ^ 16) (data.take n)) := by
  unfold update_crc
  rw [Nat.mod_eq_of_lt hn, update_crc_loop_eq data n 0 _ (by omega)]
  simp

theorem crc_index_eq (U b : Nat) :
    (((((U % 2 ^ 16) >>> 8) % 2 ^ 16) ^^^ b) &&& 0xFF) % 2 ^ 16 = ((U >>> 8) ^^^ b) &&& 0xFF := by
  have h255 : (0xFF : Nat) = 2 ^ 8 - 1 := by norm_num
  rw [h255]
  apply Nat.eq_of_testBit_eq
  intro k
  simp only [Nat.testBit_mod_two_pow, Nat.testBit_and, Nat.testBit_xor, Nat.testBit_shiftRight,
    Nat.testBit_two_pow_sub_one]
  by_cases h8 : k < 8
  · have h1 : k < 16 := by omega
    have h2 : 8 + k < 16 := by omega
    simp [h8, h1, h2]
  · simp [h8]

theorem shift_xor_mod (U t : Nat) :
    (((U % 2 ^ 16) <<< 8) ^^^ t) % 2 ^ 16 = ((U <<< 8) ^^^ t) % 2 ^ 16 := by
  apply Nat.eq_of_testBit_eq
  intro k
  simp only [Nat.testBit_mod_two_pow, Nat.testBit_xor, Nat.testBit_shiftLeft]
  by_cases h16 : k < 16
  · have h1 : k - 8 < 16 := by omega
    simp [h16, h1]
  · simp [h16]

theorem crc_step_mod (U b : Nat) :
    crc_step (U % 2 ^ 16) b = reference_step U b % 2 ^ 16 := by
  unfold crc_step reference_step
  rw [crc_index_eq, shift_xor_mod]

theorem crc_fold_mod (msg : List Nat) :
    ∀ U : Nat, crc_fold (U % 2 ^ 16) msg = msg.foldl reference_step U % 2 ^ 16 := by
  induction msg with
  | nil => intro U; rfl
  | cons b rest ih =>
    intro U
    simp only [crc_fold, List.foldl_cons] at ih ⊢
    rw [crc_step_mod, ih]

/-! ## Lemmas on the byte stores -/

theorem int_land_255 (x : Int) : Int.land x 0xFF = x % 256 := by
  cases x with
  | ofNat n =>
    show ((n &&& 255 : Nat) : Int) = (n : Int) % 256
    have h : n &&& 255 = n % 2 ^ 8 := Nat.and_pow_two_sub_one_eq_mod n 8
    rw [h]; norm_num
  | negSucc n =>
    show ((Nat.ldiff 255 n : Nat) : Int) = Int.negSucc n % 256
    have h : Nat.ldiff 255 n = 255 - n % 256 := by
      apply Nat.eq_of_testBit_eq
      intro k
      have hlt : n % 256 < 2 ^ 8 := Nat.mod_lt _ (by norm_num)
      have e : 255 - n % 256 = 2 ^ 8 - (n % 256 + 1) := by omega
      rw [e, Nat.testBit_two_pow_sub_succ hlt, Nat.testBit_ldiff]
      have e255 : (255 : Nat) = 2 ^ 8 - 1 := by norm_num
      have e256 : (256 : Nat) = 2 ^ 8 := by norm_num
      rw [e255, e256, Nat.testBit_two_pow_sub_one, Nat.testBit_mod_two_pow]
      by_cases hk : k < 8 <;> simp [hk]
    rw [h, Int.negSucc_eq]
    omega

theorem value_byte0 (v : Int) :
    to_uint8 (Int.land v 0xFF) = (v % 2 ^ 32).toNat % 256 := by
  rw [int_land_255, to_uint8]
  omega

theorem value_byte (v : Int) (k : Nat) :
    to_uint8 (Int.land (Int.shiftRight v k) 0xFF) = (v / ((2 ^ k : Nat) : Int) % 256).toNat := by
  rw [int_land_255, to_uint8, ← Int.shiftRight_eq, Int.shiftRight_eq_div_pow]
  omega

theorem crc_low_byte (c : Nat) : (c &&& 0xFF) % 2 ^ 8 = c % 256 := by
  have h : c &&& 0xFF = c % 2 ^ 8 := Nat.and_pow_two_sub_one_eq_mod c 8
  rw [h]; omega

theorem crc_high_byte (c : Nat) : ((c >>> 8) &&& 0xFF) % 2 ^ 8 = c / 256 % 256 := by
  have h : (c >>> 8) &&& 0xFF = (c >>> 8) % 2 ^ 8 := Nat.and_pow_two_sub_one_eq_mod _ 8
  rw [h, Nat.shiftRight_eq_div_pow]; omega

theorem motion_buffer_eq (h0 h1 h2 h3 h4 h5 h6 h7 h8 h9 : Nat) (v : Int) :
    motion_buffer [h0, h1, h2, h3, h4, h5, h6, h7, h8, h9, 0, 0, 0, 0, 0, 0] v =
      some ([h0, h1, h2, h3, h4, h5, h6, h7, h8, h9] ++ le_bytes32 v ++
        [crc_fold 0 ([h0, h1, h2, h3, h4, h5, h6, h7, h8, h9] ++ le_bytes32 v) % 256,
         crc_fold 0 ([h0, h1, h2, h3, h4, h5, h6, h7, h8, h9] ++ le_bytes32 v) / 256 % 256]) := by
  have e8 := value_byte v 8
  have e16 := value_byte v 16
  have e24 := value_byte v 24
  have b1 : (v / ((2 ^ 8 : Nat) : Int) % 256).toNat = (v % 2 ^ 32).toNat / 2 ^ 8 % 256 := by omega
  have b2 : (v / ((2 ^ 16 : Nat) : Int) % 256).toNat = (v % 2 ^ 32).toNat / 2 ^ 16 % 256 := by
    omega
  have b3 : (v / ((2 ^ 24 : Nat) : Int) % 256).toNat = (v % 2 ^ 32).toNat / 2 ^ 24 % 256 := by
    omega
  unfold motion_buffer
  rw [value_byte0, e8, e16, e24, b1, b2, b3]
  simp only [store, List.length_cons, List.length_nil, Option.bind_eq_bind, Option.some_bind,
    List.set_cons_succ, List.set_cons_zero, Nat.reduceAdd, Nat.reduceLT, if_true, ite_true]
  rw [update_crc_eq_fold 0 _ 14 (by norm_num) (by simp)]
  simp only [Option.some_bind, List.length_cons, List.length_nil, Nat.reduceAdd, Nat.reduceLT,
    if_true, List.set_cons_succ, List.set_cons_zero, crc_low_byte, crc_high_byte]
  simp [le_bytes32, Nat.shiftRight_eq_div_pow]


theorem with_buffer_some (buffer : List Nat) (s : State) (k : List Nat → Run) :
    with_buffer (some buffer) s k = k buffer := rfl

theorem andThen_returned (s : State) (f : State → Run) :
    (Run.returned s).andThen f = f s := rfl

theorem serial_write_returns (env : Env) (hw : ∀ t, env.write_returns t = true)
    (buf : List Nat) (n : Nat) (s : State) (hn : n ≤ buf.length) :
    serial_write env buf n s = .returned (emit (.write (buf.take n)) s) := by
  simp [serial_write, hn, hw]

theorem update_crc_motion_header (address : Nat) (v : Int) :
    update_crc 0 (motion_header address v) 14 = some (crc_fold 0 (motion_header address v)) := by
  rw [update_crc_eq_fold 0 _ 14 (by norm_num) (by simp [motion_header, le_bytes32])]
  simp [motion_header, le_bytes32]

theorem motion_buffer_frame (address : Nat) (v : Int) :
    motion_buffer
        [0xFF, 0xFF, 0xFD, 0x00, 0x00, 0x09, 0x00, 0x03, address, 0x00, 0, 0, 0, 0, 0, 0] v =
      some (motion_frame address v (crc_fold 0 (motion_header address v))) := by
  rw [motion_buffer_eq]
  rfl

theorem motion_frame_length (address : Nat) (v : Int) (c : Nat) :
    (motion_frame address v c).length = 16 := by
  simp [motion_frame, motion_header, le_bytes32]

theorem updateDynamixel_returns (env : Env) (s : State)
    (hw : ∀ t, env.write_returns t = true) :
    updateDynamixel env s = .returned { s with trace := s.trace ++
      [.write (motion_frame 0x6C s.acc_ (crc_fold 0 (motion_header 0x6C s.acc_))), .sleep 20,
       .write (motion_frame 0x70 s.vel_ (crc_fold 0 (motion_header 0x70 s.vel_))), .sleep 20,
       .write (motion_frame 0x74 s.pos_ (crc_fold 0 (motion_header 0x74 s.pos_))),
       .sleep 20] } := by
  have take16 : ∀ (a : Nat) (v : Int) (c : Nat),
      (motion_frame a v c).take 16 = motion_frame a v c := by
    intro a v c
    rw [← motion_frame_length a v c, List.take_length]
  unfold updateDynamixel
  rw [motion_buffer_frame, with_buffer_some,
    serial_write_returns env hw _ 16 _ (by rw [motion_frame_length]), andThen_returned]
  simp only [emit]
  rw [motion_buffer_frame, with_buffer_some,
    serial_write_returns env hw _ 16 _ (by rw [motion_frame_length]), andThen_returned]
  simp only [emit]
  rw [motion_buffer_frame, with_buffer_some,
    serial_write_returns env hw _ 16 _ (by rw [motion_frame_length]), andThen_returned]
  simp only [emit, take16, List.append_assoc, List.cons_append, List.nil_append]

theorem sendTorqueDisable_returns (env : Env) (s : State)
    (hw : ∀ t, env.write_returns t = true) :
    sendTorqueDisable env s = .returned { s with trace := s.trace ++
      [.write [0xFF, 0xFF, 0xFD, 0x00, 0x00, 0x06, 0x00, 0x03, 0x40, 0x00, 0x00, 0xCD, 0x67],
       .sleep 100, .info "Torque disabled" []] } := by
  have h : sendTorqueDisable env s =
      (serial_write env
        [0xFF, 0xFF, 0xFD, 0x00, 0x00, 0x06, 0x00, 0x03, 0x40, 0x00, 0x00, 0xCD, 0x67, 0] 13
        s).andThen fun s =>
      .returned (emit (.info "Torque disabled" []) (emit (.sleep 100) s)) := rfl
  rw [h, serial_write_returns env hw _ 13 _ (by decide), andThen_returned]
  simp [emit]

theorem setDriveMode_returns (env : Env) (s : State)
    (hw : ∀ t, env.write_returns t = true) :
    setDriveMode env s = .returned { s with trace := s.trace ++
      [.write [0xFF, 0xFF, 0xFD, 0x00, 0x00, 0x06, 0x00, 0x03, 0x0A, 0x00, 0x00, 0x46, 0xE2],
       .sleep 100, .info "Drive mode set" []] } := by
  have h : setDriveMode env s =
      (serial_write env
        [0xFF, 0xFF, 0xFD, 0x00, 0x00, 0x06, 0x00, 0x03, 0x0A, 0x00, 0x00, 0x46, 0xE2, 0] 13
        s).andThen fun s =>
      .returned (emit (.info "Drive mode set" []) (emit (.sleep 100) s)) := rfl
  rw [h, serial_write_returns env hw _ 13 _ (by decide), andThen_returned]
  simp [emit]

theorem setOperatingMode_returns (env : Env) (s : State)
    (hw : ∀ t, env.write_returns t = true) :
    setOperatingMode env s = .returned { s with trace := s.trace ++
      [.write [0xFF, 0xFF, 0xFD, 0x00, 0x00, 0x06, 0x00, 0x03, 0x0B, 0x00, 0x04, 0x4A, 0xE2],
       .sleep 100, .info "Operating mode set to Extended Position Control" []] } := by
  have h : setOperatingMode env s =
      (serial_write env
        [0xFF, 0xFF, 0xFD, 0x00, 0x00, 0x06, 0x00, 0x03, 0x0B, 0x00, 0x04, 0x4A, 0xE2, 0] 13
        s).andThen fun s =>
      .returned
        (emit (.info "Operating mode set to Extended Position Control" [])
          (emit (.sleep 100) s)) := rfl
  rw [h, serial_write_returns env hw _ 13 _ (by decide), andThen_returned]
  simp [emit]

theorem sendTorqueEnable_returns (env : Env) (s : State)
    (hw : ∀ t, env.write_returns t = true) :
    sendTorqueEnable env s = .returned { s with trace := s.trace ++
      [.write [0xFF, 0xFF, 0xFD, 0x00, 0x00, 0x06, 0x00, 0x03, 0x40, 0x00, 0x01, 0xC8, 0xE7],
       .sleep 100, .info "Torque enabled" []] } := by
  have h : sendTorqueEnable env s =
      (serial_write env
        [0xFF, 0xFF, 0xFD, 0x00, 0x00, 0x06, 0x00, 0x03, 0x40, 0x00, 0x01, 0xC8, 0xE7, 0] 13
        s).andThen fun s =>
      .returned (emit (.info "Torque enabled" []) (emit (.sleep 100) s)) := rfl
  rw [h, serial_write_returns env hw _ 13 _ (by decide), andThen_returned]
  simp [emit]

theorem DynamixelController_returns (env : Env) (ho : env.open_raises = false)
    (hi : env.is_open = true) (hw : ∀ t, env.write_returns t = true) :
    DynamixelController env = .returned
      { acc_ := env.acc_storage, vel_ := env.vel_storage, pos_ := env.pos_storage,
        subscribed := true, trace := init_trace } := by
  unfold DynamixelController
  simp only [ho, hi, if_true, Bool.false_eq_true, if_false]
  rw [sendTorqueDisable_returns env _ hw, andThen_returned,
    setDriveMode_returns env _ hw, andThen_returned,
    setOperatingMode_returns env _ hw, andThen_returned,
    sendTorqueEnable_returns env _ hw, andThen_returned]
  simp [emit, init_trace]
  decide

/-! ## The table and the polynomial -/

theorem crc_table_generated : crc_table = (List.range 256).map generated_entry := by
  decide

theorem poly_step_xor (x y : Nat) : poly_step (x ^^^ y) = poly_step x ^^^ poly_step y := by
  have hs : ((x ^^^ y) <<< 1) % 2 ^ 16 = ((x <<< 1) % 2 ^ 16) ^^^ ((y <<< 1) % 2 ^ 16) := by
    apply Nat.eq_of_testBit_eq
    intro k
    simp only [Nat.testBit_mod_two_pow, Nat.testBit_xor, Nat.testBit_shiftLeft]
    by_cases h16 : k < 16 <;> by_cases h1 : 1 ≤ k <;> simp [h16, h1]
  unfold poly_step
  rw [Nat.testBit_xor, hs]
  cases hx : x.testBit 15 <;> cases hy : y.testBit 15 <;> simp
  · rw [Nat.xor_assoc]
  · rw [Nat.xor_assoc, Nat.xor_comm (y <<< 1 % 65536) 32773, Nat.xor_assoc]
  · rw [Nat.xor_assoc, Nat.xor_comm 32773 (_ ^^^ 32773), Nat.xor_assoc, Nat.xor_self,
      Nat.xor_zero]

theorem poly_steps_xor (k : Nat) :
    ∀ x y : Nat, poly_steps k (x ^^^ y) = poly_steps k x ^^^ poly_steps k y := by
  induction k with
  | zero => intro x y; rfl
  | succ k ih => intro x y; simp only [poly_steps]; rw [poly_step_xor, ih]

theorem poly_steps_low : ∀ lo : Nat, lo < 256 → poly_steps 8 lo = lo <<< 8 := by
  decide

theorem split_high_low (c b : Nat) :
    c ^^^ (b <<< 8) = (((c >>> 8) ^^^ b) <<< 8) ^^^ (c % 256) := by
  have e : (256 : Nat) = 2 ^ 8 := by norm_num
  rw [e]
  apply Nat.eq_of_testBit_eq
  intro k
  simp only [Nat.testBit_mod_two_pow, Nat.testBit_xor, Nat.testBit_shiftLeft,
    Nat.testBit_shiftRight]
  by_cases h8 : k < 8
  · have h : ¬ (8 ≤ k) := by omega
    simp [h8, h]
  · have h : 8 ≤ k := by omega
    have e2 : 8 + (k - 8) = k := by omega
    simp [h8, h, e2]

theorem shift_low (c : Nat) : (c <<< 8) % 2 ^ 16 = (c % 256) <<< 8 := by
  have e : (256 : Nat) = 2 ^ 8 := by norm_num
  rw [e]
  apply Nat.eq_of_testBit_eq
  intro k
  simp only [Nat.testBit_mod_two_pow, Nat.testBit_shiftLeft]
  by_cases h16 : k < 16 <;> by_cases h8 : 8 ≤ k
  · have h : k - 8 < 8 := by omega
    simp [h16, h8, h]
  · simp [h16, h8]
  · have h : ¬ (k - 8 < 8) := by omega
    simp [h16, h8, h]
  · simp [h16, h8]

theorem generated_entry_lt : ∀ i : Nat, i < 256 → generated_entry i < 2 ^ 16 := by
  decide

theorem crc_table_getD (i : Nat) (hi : i < 256) : crc_table.getD i 0 = generated_entry i := by
  rw [crc_table_generated, List.getD_eq_getElem _ _ (by simpa using hi)]
  simp

theorem xor_mod_16 (a b : Nat) : (a ^^^ b) % 2 ^ 16 = (a % 2 ^ 16) ^^^ (b % 2 ^ 16) := by
  apply Nat.eq_of_testBit_eq
  intro k
  simp only [Nat.testBit_mod_two_pow, Nat.testBit_xor]
  by_cases h16 : k < 16 <;> simp [h16]

theorem crc_index_of_bytes (c b : Nat) (hc : c < 2 ^ 16) (hb : b < 256) :
    ((((c >>> 8) % 2 ^ 16) ^^^ b) &&& 0xFF) % 2 ^ 16 = (c >>> 8) ^^^ b := by
  have h1 : c >>> 8 < 2 ^ 8 := by rw [Nat.shiftRight_eq_div_pow]; omega
  have h2 : (c >>> 8) % 2 ^ 16 = c >>> 8 := Nat.mod_eq_of_lt (by omega)
  have h3 : (c >>> 8) ^^^ b < 2 ^ 8 := Nat.xor_lt_two_pow h1 (by omega)
  have h4 : ((c >>> 8) ^^^ b) &&& 0xFF = ((c >>> 8) ^^^ b) % 2 ^ 8 :=
    Nat.and_pow_two_sub_one_eq_mod _ 8
  rw [h2, h4, Nat.mod_eq_of_lt h3, Nat.mod_eq_of_lt (by omega)]

theorem crc_step_eq_bitwise (c b : Nat) (hc : c < 2 ^ 16) (hb : b < 256) :
    crc_step c b = poly_steps 8 (c ^^^ (b <<< 8)) := by
  have hidx : (c >>> 8) ^^^ b < 256 := by
    rw [← crc_index_of_bytes c b hc hb]; exact crc_index_lt _ _
  unfold crc_step
  rw [crc_index_of_bytes c b hc hb, crc_table_getD _ hidx, xor_mod_16, shift_low,
    Nat.mod_eq_of_lt (generated_entry_lt _ hidx), split_high_low, poly_steps_xor,
    poly_steps_low _ (Nat.mod_lt _ (by norm_num)), Nat.xor_comm]
  rfl

theorem crc_fold_eq_bitwise (msg : List Nat) (hb : ∀ b ∈ msg, b < 256) :
    ∀ c : Nat, c < 2 ^ 16 →
      crc_fold c msg = msg.foldl (fun crc b => poly_steps 8 (crc ^^^ (b <<< 8))) c := by
  induction msg with
  | nil => intro c _; rfl
  | cons b rest ih =>
    intro c hc
    have hb0 : b < 256 := hb b (List.mem_cons_self _ _)
    have hrest : ∀ x ∈ rest, x < 256 := fun x hx => hb x (List.mem_cons_of_mem _ hx)
    simp only [crc_fold, List.foldl_cons] at ih ⊢
    rw [← crc_step_eq_bitwise c b hc hb0]
    exact ih hrest _ (crc_step_lt c b)

theorem zeros_then_one_bytes (n : Nat) : ∀ b ∈ List.replicate n 0 ++ [1], b < 256 := by
  intro b hb
  rcases List.mem_append.1 hb with h | h
  · rw [List.eq_of_mem_replicate h]; decide
  · rw [List.mem_singleton.1 h]; decide

theorem update_crc_zeros_then_one (n : Nat) (hpos : 0 < n) (hn : (n + 1) % 2 ^ 16 = 1) :
    update_crc 0 (List.replicate n 0 ++ [1]) (n + 1) = some 0 := by
  have h0 : (List.replicate n 0 ++ [1])[0]? = some 0 := by
    rw [List.getElem?_append_left (by rw [List.length_replicate]; exact hpos),
      List.getElem?_replicate]
    simp [hpos]
  unfold update_crc
  rw [hn]
  show update_crc_loop _ 1 0 0 = some 0
  rw [update_crc_loop, h0]
  rfl

theorem bitwise_crc_zeros_then_one (n : Nat) :
    bitwise_crc (List.replicate n 0 ++ [1]) = 0x8005 := by
  have hz : ∀ k : Nat,
      (List.replicate k 0).foldl (fun crc b => poly_steps 8 (crc ^^^ (b <<< 8))) 0 = 0 := by
    intro k
    induction k with
    | zero => rfl
    | succ k ih =>
      rw [List.replicate_succ, List.foldl_cons]
      exact ih
  unfold bitwise_crc
  rw [List.foldl_append, hz]
  decide

/-! ## The packets of a run -/

theorem writes_burst (env : Env) (hw : ∀ t, env.write_returns t = true) (acc vel pos : Int) :
    writes (updateDynamixel env (idle_state acc vel pos)).state.trace =
      [motion_frame 0x6C acc (crc_fold 0 (motion_header 0x6C acc)),
       motion_frame 0x70 vel (crc_fold 0 (motion_header 0x70 vel)),
       motion_frame 0x74 pos (crc_fold 0 (motion_header 0x74 pos))] := by
  rw [updateDynamixel_returns env _ hw]
  rfl

theorem motion_frame_take (address : Nat) (v : Int) (c : Nat) :
    (motion_frame address v c).take 14 = motion_header address v := by
  simp [motion_frame, motion_header, le_bytes32]

theorem motion_frame_drop (address : Nat) (v : Int) (c : Nat) :
    (motion_frame address v c).drop 14 = [c % 256, c / 256 % 256] := by
  simp [motion_frame, motion_header, le_bytes32]

theorem motion_frame_value (address : Nat) (v : Int) (c : Nat) :
    ((motion_frame address v c).drop 10).take 4 = le_bytes32 v := by
  simp [motion_frame, motion_header, le_bytes32]

theorem motion_frame_payload (address : Nat) (v : Int) (c : Nat) :
    payload (motion_frame address v c) = le_bytes32 v := by
  simp [payload, motion_frame, motion_header, le_bytes32, List.dropLast]

theorem motion_frame_length_field (address : Nat) (v : Int) (c : Nat) :
    length_field (motion_frame address v c) = 9 := by
  simp [length_field, motion_frame, motion_header]

theorem decode_le_bytes32 (v : Int) (hlo : -2 ^ 31 ≤ v) (hhi : v < 2 ^ 31) :
    decode_le_i32 (le_bytes32 v) = v := by
  simp only [decode_le_i32, le_bytes32, List.getD_cons_zero, List.getD_cons_succ]
  split <;> omega

theorem crc_roundtrip_motion (address : Nat) (v : Int) :
    ∃ crc : Nat,
      update_crc 0
          ((motion_frame address v (crc_fold 0 (motion_header address v))).take
            ((motion_frame address v (crc_fold 0 (motion_header address v))).length - 2))
          ((motion_frame address v (crc_fold 0 (motion_header address v))).length - 2) =
        some crc ∧
      crc < 2 ^ 16 ∧
      (motion_frame address v (crc_fold 0 (motion_header address v))).drop
          ((motion_frame address v (crc_fold 0 (motion_header address v))).length - 2) =
        [crc % 256, crc / 256] := by
  have hlt : crc_fold 0 (motion_header address v) < 2 ^ 16 := crc_fold_lt _ 0 (by norm_num)
  refine ⟨crc_fold 0 (motion_header address v), ?_, hlt, ?_⟩
  · rw [motion_frame_length, motion_frame_take]
    exact update_crc_motion_header address v
  · rw [motion_frame_length, motion_frame_drop]
    have : crc_fold 0 (motion_header address v) / 256 % 256 =
        crc_fold 0 (motion_header address v) / 256 := by omega
    rw [this]

/-! ## `update_crc` reads only the bytes it is given -/

theorem update_crc_loop_congr (data data' : List Nat) :
    ∀ (n j c : Nat), (∀ k, j ≤ k → k < j + n → data[k]? = data'[k]?) →
      update_crc_loop data n j c = update_crc_loop data' n j c := by
  intro n
  induction n with
  | zero => intro j c _; rfl
  | succ n ih =>
    intro j c h
    have hj : data[j]? = data'[j]? := h j (le_refl _) (by omega)
    rw [update_crc_loop, update_crc_loop, hj]
    cases data'[j]? with
    | none => rfl
    | some b =>
      simp only []
      cases crc_table[((((c >>> 8) % 2 ^ 16) ^^^ b) &&& 0xFF) % 2 ^ 16]? with
      | none => rfl
      | some t =>
        simp only []
        exact ih (j + 1) _ (fun k h1 h2 => h k (by omega) (by omega))

theorem update_crc_congr (c n : Nat) (data data' : List Nat)
    (h : data.take (n % 2 ^ 16) = data'.take (n % 2 ^ 16)) :
    update_crc c data n = update_crc c data' n := by
  unfold update_crc
  apply update_crc_loop_congr
  intro k _ hk
  have hk' : k < n % 2 ^ 16 := by omega
  rw [← List.getElem?_take_of_lt hk', ← List.getElem?_take_of_lt (l := data') hk', h]

/-! ## Runs on a transport that may refuse writes -/

theorem serial_write_eq (env : Env) (buf : List Nat) (n : Nat) (s : State)
    (hn : n ≤ buf.length) :
    serial_write env buf n s =
      if env.write_returns s.trace then .returned (emit (.write (buf.take n)) s)
      else .raised (emit (.write_raised (buf.take n)) s) := by
  simp [serial_write, hn]

theorem sendTorqueDisable_eq (env : Env) (s : State) :
    sendTorqueDisable env s =
      if env.write_returns s.trace then
        .returned { s with trace := s.trace ++
          [.write (config_frame 0x40 0x00 0x67CD), .sleep 100, .info "Torque disabled" []] }
      else
        .raised { s with trace := s.trace ++ [.write_raised (config_frame 0x40 0x00 0x67CD)] } := by
  have h : sendTorqueDisable env s =
      (serial_write env
        [0xFF, 0xFF, 0xFD, 0x00, 0x00, 0x06, 0x00, 0x03, 0x40, 0x00, 0x00, 0xCD, 0x67, 0] 13
        s).andThen fun s =>
      .returned (emit (.info "Torque disabled" []) (emit (.sleep 100) s)) := rfl
  rw [h, serial_write_eq env _ 13 _ (by decide)]
  cases env.write_returns s.trace <;> simp [emit, config_frame, config_header, Run.andThen]

theorem setDriveMode_eq (env : Env) (s : State) :
    setDriveMode env s =
      if env.write_returns s.trace then
        .returned { s with trace := s.trace ++
          [.write (config_frame 0x0A 0x00 0xE246), .sleep 100, .info "Drive mode set" []] }
      else
        .raised { s with trace := s.trace ++ [.write_raised (config_frame 0x0A 0x00 0xE246)] } := by
  have h : setDriveMode env s =
      (serial_write env
        [0xFF, 0xFF, 0xFD, 0x00, 0x00, 0x06, 0x00, 0x03, 0x0A, 0x00, 0x00, 0x46, 0xE2, 0] 13
        s).andThen fun s =>
      .returned (emit (.info "Drive mode set" []) (emit (.sleep 100) s)) := rfl
  rw [h, serial_write_eq env _ 13 _ (by decide)]
  cases env.write_returns s.trace <;> simp [emit, config_frame, config_header, Run.andThen]

theorem setOperatingMode_eq (env : Env) (s : State) :
    setOperatingMode env s =
      if env.write_returns s.trace then
        .returned { s with trace := s.trace ++
          [.write (config_frame 0x0B 0x04 0xE24A), .sleep 100,
           .info "Operating mode set to Extended Position Control" []] }
      else
        .raised { s with trace := s.trace ++ [.write_raised (config_frame 0x0B 0x04 0xE24A)] } := by
  have h : setOperatingMode env s =
      (serial_write env
        [0xFF, 0xFF, 0xFD, 0x00, 0x00, 0x06, 0x00, 0x03, 0x0B, 0x00, 0x04, 0x4A, 0xE2, 0] 13
        s).andThen fun s =>
      .returned
        (emit (.info "Operating mode set to Extended Position Control" [])
          (emit (.sleep 100) s)) := rfl
  rw [h, serial_write_eq env _ 13 _ (by decide)]
  cases env.write_returns s.trace <;> simp [emit, config_frame, config_header, Run.andThen]

theorem sendTorqueEnable_eq (env : Env) (s : State) :
    sendTorqueEnable env s =
      if env.write_returns s.trace then
        .returned { s with trace := s.trace ++
          [.write (config_frame 0x40 0x01 0xE7C8), .sleep 100, .info "Torque enabled" []] }
      else
        .raised { s with trace := s.trace ++ [.write_raised (config_frame 0x40 0x01 0xE7C8)] } := by
  have h : sendTorqueEnable env s =
      (serial_write env
        [0xFF, 0xFF, 0xFD, 0x00, 0x00, 0x06, 0x00, 0x03, 0x40, 0x00, 0x01, 0xC8, 0xE7, 0] 13
        s).andThen fun s =>
      .returned (emit (.info "Torque enabled" []) (emit (.sleep 100) s)) := rfl
  rw [h, serial_write_eq env _ 13 _ (by decide)]
  cases env.write_returns s.trace <;> simp [emit, config_frame, config_header, Run.andThen]

theorem writes_append (t u : List Event) : writes (t ++ u) = writes t ++ writes u := by
  induction t with
  | nil => rfl
  | cons e rest ih => cases e <;> simp [writes, ih]

theorem construction_writes_subset (env : Env) :
    ∀ p ∈ writes (DynamixelController env).state.trace,
      p ∈ [config_frame 0x40 0x00 0x67CD, config_frame 0x0A 0x00 0xE246,
        config_frame 0x0B 0x04 0xE24A, config_frame 0x40 0x01 0xE7C8] := by
  unfold DynamixelController
  cases env.open_raises
  · cases env.is_open
    · simp [emit, Run.state, writes]
    · simp only [if_true, Bool.false_eq_true, if_false]
      rw [sendTorqueDisable_eq]
      split
      · rw [andThen_returned, setDriveMode_eq]
        split
        · rw [andThen_returned, setOperatingMode_eq]
          split
          · rw [andThen_returned, sendTorqueEnable_eq]
            split <;> simp [emit, Run.state, Run.andThen, writes]
          · simp [emit, Run.state, Run.andThen, writes]
        · simp [emit, Run.state, Run.andThen, writes]
      · simp [emit, Run.state, Run.andThen, writes]
  · simp [emit, Run.state, writes]

theorem burst_writes_subset (env : Env) (acc vel pos : Int) :
    ∀ p ∈ writes (updateDynamixel env (idle_state acc vel pos)).state.trace,
      p ∈ [motion_frame 0x6C acc (crc_fold 0 (motion_header 0x6C acc)),
        motion_frame 0x70 vel (crc_fold 0 (motion_header 0x70 vel)),
        motion_frame 0x74 pos (crc_fold 0 (motion_header 0x74 pos))] := by
  have take16 : ∀ (a : Nat) (v : Int) (c : Nat),
      (motion_frame a v c).take 16 = motion_frame a v c := by
    intro a v c
    rw [← motion_frame_length a v c, List.take_length]
  unfold updateDynamixel
  rw [motion_buffer_frame, with_buffer_some,
    serial_write_eq env _ 16 _ (by rw [motion_frame_length])]
  split
  · rw [andThen_returned]
    simp only [emit]
    rw [motion_buffer_frame, with_buffer_some,
      serial_write_eq env _ 16 _ (by rw [motion_frame_length])]
    split
    · rw [andThen_returned]
      simp only [emit]
      rw [motion_buffer_frame, with_buffer_some,
        serial_write_eq env _ 16 _ (by rw [motion_frame_length])]
      split <;> simp [emit, Run.state, Run.andThen, writes, writes_append, idle_state, take16]
    · simp [emit, Run.state, Run.andThen, writes, writes_append, idle_state, take16]
  · simp [emit, Run.state, Run.andThen, writes, writes_append, idle_state, take16]

/-! ## The outcomes of a burst and of the construction on any transport -/

theorem sent_frame_take (address : Nat) (v : Int) :
    (sent_frame address v).take 16 = sent_frame address v := by
  unfold sent_frame
  rw [← motion_frame_length address v _, List.take_length]

theorem motion_buffer_sent (address : Nat) (v : Int) :
    motion_buffer
        [0xFF, 0xFF, 0xFD, 0x00, 0x00, 0x09, 0x00, 0x03, address, 0x00, 0, 0, 0, 0, 0, 0] v =
      some (sent_frame address v) :=
  motion_buffer_frame address v

theorem sent_frame_length (address : Nat) (v : Int) : (sent_frame address v).length = 16 :=
  motion_frame_length address v _

theorem updateDynamixel_eq (env : Env) (s : State) :
    updateDynamixel env s =
      if env.write_returns s.trace then
        if env.write_returns (s.trace ++ [.write (sent_frame 0x6C s.acc_), .sleep 20]) then
          if env.write_returns (s.trace ++ [.write (sent_frame 0x6C s.acc_), .sleep 20,
              .write (sent_frame 0x70 s.vel_), .sleep 20]) then
            .returned { s with trace := s.trace ++ burst_events s }
          else .raised { s with trace := s.trace ++ cut_burst_events s 2 }
        else .raised { s with trace := s.trace ++ cut_burst_events s 1 }
      else .raised { s with trace := s.trace ++ cut_burst_events s 0 } := by
  unfold updateDynamixel
  rw [motion_buffer_sent, with_buffer_some,
    serial_write_eq env _ 16 _ (by rw [sent_frame_length])]
  split
  · rw [andThen_returned]
    simp only [emit]
    rw [motion_buffer_sent, with_buffer_some,
      serial_write_eq env _ 16 _ (by rw [sent_frame_length])]
    simp only [List.append_assoc, List.cons_append, List.nil_append, sent_frame_take]
    split
    · rw [andThen_returned]
      simp only [emit]
      rw [motion_buffer_sent, with_buffer_some,
        serial_write_eq env _ 16 _ (by rw [sent_frame_length])]
      simp only [List.append_assoc, List.cons_append, List.nil_append, sent_frame_take]
      split
      · simp [Run.andThen, emit, burst_events]
      · simp [Run.andThen, emit, cut_burst_events]
    · simp [Run.andThen, emit, cut_burst_events]
  · simp [Run.andThen, emit, cut_burst_events, sent_frame_take]

theorem DynamixelController_eq (env : Env) :
    DynamixelController env =
      if env.open_raises then
        .returned (constructed env false [.error "Unable to open port", .shutdown])
      else if env.is_open then
        if env.write_returns (cut_init_trace 0).dropLast then
          if env.write_returns (cut_init_trace 1).dropLast then
            if env.write_returns (cut_init_trace 2).dropLast then
              if env.write_returns (cut_init_trace 3).dropLast then
                .returned (constructed env true init_trace)
              else .raised (constructed env true (cut_init_trace 3))
            else .raised (constructed env true (cut_init_trace 2))
          else .raised (constructed env true (cut_init_trace 1))
        else .raised (constructed env true (cut_init_trace 0))
      else .returned (constructed env false [.error "Failed to open serial port", .shutdown]) := by
  unfold DynamixelController
  cases env.open_raises
  · cases env.is_open
    · simp [emit, constructed]
    · simp only [if_true, Bool.false_eq_true, if_false]
      rw [sendTorqueDisable_eq]
      simp only [emit, List.nil_append, cut_init_trace, List.dropLast]
      split
      · rw [andThen_returned, setDriveMode_eq]
        simp only [List.cons_append, List.nil_append]
        split
        · rw [andThen_returned, setOperatingMode_eq]
          simp only [List.cons_append, List.nil_append]
          split
          · rw [andThen_returned, sendTorqueEnable_eq]
            simp only [List.cons_append, List.nil_append]
            split
            · simp [Run.andThen, emit, constructed, init_trace]
            · simp [Run.andThen, constructed]
          · simp [Run.andThen, constructed]
        · simp [Run.andThen, constructed]
      · simp [Run.andThen, constructed]
  · simp [emit, constructed]

theorem main_of_raised (env : Env) (msgs : List Msg) (s : State)
    (h : DynamixelController env = .raised s) : main env msgs = .raised s := by
  unfold main
  rw [h]
  rfl

/-! ## Notifications -/

theorem dispatch_eq (env : Env) (m : Msg) (s : State) :
    dispatch env m s = updateDynamixel env (assigned m s) := by
  cases m <;> rfl

theorem spin_cons (env : Env) (m : Msg) (rest : List Msg) (s : State)
    (hsub : s.subscribed = true) :
    spin env (m :: rest) s = (dispatch env m s).andThen (spin env rest) := by
  rw [spin]
  simp [hsub]

theorem spin_unsubscribed (env : Env) (msgs : List Msg) (s : State)
    (hsub : s.subscribed = false) : spin env msgs s = .returned s := by
  cases msgs with
  | nil => rfl
  | cons m rest =>
    rw [spin]
    simp [hsub]

theorem main_of_returned (env : Env) (msgs : List Msg) (s : State)
    (h : DynamixelController env = .returned s) : main env msgs = spin env msgs s := by
  unfold main
  rw [h]
  rfl

/-! ## The trace of a whole run -/

theorem assigned_registers (m : Msg) (s : State) :
    ((assigned m s).acc_, (assigned m s).vel_, (assigned m s).pos_) =
      next_registers (s.acc_, s.vel_, s.pos_) m := by
  cases m <;> rfl

theorem assigned_subscribed (m : Msg) (s : State) :
    (assigned m s).subscribed = s.subscribed := by
  cases m <;> rfl

theorem writes_assigned (m : Msg) (s : State) :
    writes (assigned m s).trace = writes s.trace := by
  cases m with
  | acc data => rfl
  | vel data => rfl
  | pos data =>
    show writes (s.trace ++ [_]) = writes s.trace
    rw [writes_append]
    simp [writes]

theorem writes_burst_events (s : State) :
    writes (burst_events s) =
      [sent_frame 0x6C s.acc_, sent_frame 0x70 s.vel_, sent_frame 0x74 s.pos_] := rfl

theorem spin_writes (env : Env) (hw : ∀ t, env.write_returns t = true) (msgs : List Msg) :
    ∀ s : State, s.subscribed = true →
      (spin env msgs s).is_raised = false ∧ (spin env msgs s).is_fault = false ∧
      writes (spin env msgs s).state.trace =
        writes s.trace ++ bursts (s.acc_, s.vel_, s.pos_) msgs := by
  induction msgs with
  | nil =>
    intro s _
    simp [spin, Run.is_raised, Run.is_fault, Run.state, bursts]
  | cons m rest ih =>
    intro s hsub
    rw [spin_cons env m rest s hsub, dispatch_eq, updateDynamixel_eq]
    simp only [hw, if_true, andThen_returned]
    have hsub2 : ({ assigned m s with
        trace := (assigned m s).trace ++ burst_events (assigned m s) } : State).subscribed =
        true := by
      show (assigned m s).subscribed = true
      rw [assigned_subscribed]; exact hsub
    obtain ⟨h1, h2, h3⟩ := ih _ hsub2
    refine ⟨h1, h2, ?_⟩
    rw [h3]
    simp only [writes_append, writes_burst_events, writes_assigned, bursts, List.append_assoc]
    rw [← assigned_registers m s]

theorem sent_frame_is_motion (v : Int) :
    is_motion_write (sent_frame 0x6C v) = true ∧ is_motion_write (sent_frame 0x70 v) = true ∧
    is_motion_write (sent_frame 0x74 v) = true := by
  simp [is_motion_write, sent_frame, motion_frame, motion_header]

theorem andThen_raised (s : State) (f : State → Run) :
    (Run.raised s).andThen f = .raised s := rfl

theorem spin_shape (env : Env) (msgs : List Msg) :
    ∀ s : State, (spin env msgs s).is_fault = false ∧
      ∃ ms : List (List Nat), writes (spin env msgs s).state.trace = writes s.trace ++ ms ∧
        ∀ p ∈ ms, is_motion_write p = true := by
  induction msgs with
  | nil =>
    intro s
    exact ⟨rfl, [], by simp [spin, Run.state], by simp⟩
  | cons m rest ih =>
    intro s
    cases hsub : s.subscribed
    · rw [spin_unsubscribed env _ s hsub]
      exact ⟨rfl, [], by simp [Run.state], by simp⟩
    · obtain ⟨ha, hv, hp⟩ := sent_frame_is_motion (assigned m s).acc_
      obtain ⟨-, hv, -⟩ := sent_frame_is_motion (assigned m s).vel_
      obtain ⟨-, -, hp⟩ := sent_frame_is_motion (assigned m s).pos_
      rw [spin_cons env m rest s hsub, dispatch_eq, updateDynamixel_eq]
      split
      · split
        · split
          · rw [andThen_returned]
            obtain ⟨h1, ms, h2, h3⟩ := ih { assigned m s with
              trace := (assigned m s).trace ++ burst_events (assigned m s) }
            refine ⟨h1, [sent_frame 0x6C (assigned m s).acc_,
              sent_frame 0x70 (assigned m s).vel_, sent_frame 0x74 (assigned m s).pos_] ++ ms,
              ?_, ?_⟩
            · rw [h2]
              simp only [writes_append, writes_burst_events, writes_assigned,
                List.append_assoc]
            · intro p hp'
              simp only [List.mem_append, List.mem_cons, List.mem_singleton,
                List.not_mem_nil, or_false] at hp'
              rcases hp' with (h | h | h) | h
              · subst h; exact ha
              · subst h; exact hv
              · subst h; exact hp
              · exact h3 p h
          · rw [andThen_raised]
            refine ⟨rfl, [sent_frame 0x6C (assigned m s).acc_,
              sent_frame 0x70 (assigned m s).vel_], ?_, ?_⟩
            · simp only [Run.state, writes_append, writes_assigned]
              rfl
            · intro p hp'
              simp only [List.mem_cons, List.mem_singleton, List.not_mem_nil, or_false] at hp'
              rcases hp' with h | h
              · subst h; exact ha
              · subst h; exact hv
        · rw [andThen_raised]
          refine ⟨rfl, [sent_frame 0x6C (assigned m s).acc_], ?_, ?_⟩
          · simp only [Run.state, writes_append, writes_assigned]
            rfl
          · intro p hp'
            simp only [List.mem_singleton] at hp'
            subst hp'; exact ha
      · rw [andThen_raised]
        refine ⟨rfl, [], ?_, by simp⟩
        simp only [Run.state, writes_append, writes_assigned]
        rfl

theorem main_shape (env : Env) (msgs : List Msg) :
    (main env msgs).is_fault = false ∧
    ∃ (k : Nat) (ms : List (List Nat)), k ≤ 4 ∧
      writes (main env msgs).state.trace = init_frames.take k ++ ms ∧
      (∀ p ∈ ms, is_motion_write p = true) ∧ (ms ≠ [] → k = 4) := by
  have stop : ∀ (r : Run) (k : Nat), k ≤ 4 → main env msgs = r → r.is_fault = false →
      writes r.state.trace = init_frames.take k →
      (main env msgs).is_fault = false ∧
      ∃ (k : Nat) (ms : List (List Nat)), k ≤ 4 ∧
        writes (main env msgs).state.trace = init_frames.take k ++ ms ∧
        (∀ p ∈ ms, is_motion_write p = true) ∧ (ms ≠ [] → k = 4) := by
    intro r k hk hm hf hwr
    rw [hm]
    exact ⟨hf, k, [], hk, by rw [hwr, List.append_nil], by simp, by simp⟩
  have hd := DynamixelController_eq env
  split at hd
  · exact stop (.returned (constructed env false [.error "Unable to open port", .shutdown])) 0
      (by decide)
      (by rw [main_of_returned env msgs _ hd, spin_unsubscribed env msgs _ rfl]) rfl rfl
  · split at hd
    · split at hd
      · split at hd
        · split at hd
          · split at hd
            · rw [main_of_returned env msgs _ hd]
              obtain ⟨h1, ms, h2, h3⟩ := spin_shape env msgs (constructed env true init_trace)
              exact ⟨h1, 4, ms, le_refl _, by rw [h2]; rfl, h3, fun _ => rfl⟩
            · exact stop _ 3 (by decide) (main_of_raised env msgs _ hd) rfl rfl
          · exact stop _ 2 (by decide) (main_of_raised env msgs _ hd) rfl rfl
        · exact stop _ 1 (by decide) (main_of_raised env msgs _ hd) rfl rfl
      · exact stop _ 0 (by decide) (main_of_raised env msgs _ hd) rfl rfl
    · exact stop
        (.returned (constructed env false [.error "Failed to open serial port", .shutdown])) 0
        (by decide)
        (by rw [main_of_returned env msgs _ hd, spin_unsubscribed env msgs _ rfl]) rfl rfl

theorem motion_is_not_config (p : List Nat) (h : is_motion_write p = true) :
    is_config_write p = false := by
  unfold is_motion_write at h
  unfold is_config_write
  generalize p.getD 8 0 = x at h ⊢
  simp only [Bool.or_eq_true, beq_iff_eq] at h
  rcases h with (h | h) | h <;> subst h <;> decide

theorem bursts_length (msgs : List Msg) :
    ∀ r : Int × Int × Int, (bursts r msgs).length = 3 * msgs.length := by
  induction msgs with
  | nil => intro r; rfl
  | cons m rest ih =>
    intro r
    simp only [bursts, List.length_append, List.length_cons, List.length_nil, ih]
    omega

theorem updateDynamixel_registers (env : Env) (s : State) :
    (updateDynamixel env s).state.acc_ = s.acc_ ∧ (updateDynamixel env s).state.vel_ = s.vel_ ∧
    (updateDynamixel env s).state.pos_ = s.pos_ ∧
    (updateDynamixel env s).state.subscribed = s.subscribed ∧
    (updateDynamixel env s).is_fault = false := by
  rw [updateDynamixel_eq]
  split
  · split
    · split
      · exact ⟨rfl, rfl, rfl, rfl, rfl⟩
      · exact ⟨rfl, rfl, rfl, rfl, rfl⟩
    · exact ⟨rfl, rfl, rfl, rfl, rfl⟩
  · exact ⟨rfl, rfl, rfl, rfl, rfl⟩

theorem updateDynamixel_accepted (env : Env) (s : State)
    (hw : ∀ t, env.write_returns t = true) :
    updateDynamixel env s = .returned { s with trace := s.trace ++ burst_events s } := by
  rw [updateDynamixel_eq]
  simp only [hw, if_true]

/-! ## Array bounds -/

theorem update_crc_loop_overrun (data : List Nat) :
    ∀ (n j c : Nat), j ≤ data.length → data.length < j + n →
      update_crc_loop data n j c = none := by
  intro n
  induction n with
  | zero => intro j c h1 h2; omega
  | succ n ih =>
    intro j c h1 h2
    rw [update_crc_loop]
    by_cases hj : j < data.length
    · have hi2 : ((((c >>> 8) % 2 ^ 16) ^^^ data[j]) &&& 0xFF) % 2 ^ 16 < crc_table.length := by
        rw [crc_table_length]; exact crc_index_lt _ _
      rw [List.getElem?_eq_getElem hj]
      simp only []
      rw [List.getElem?_eq_getElem hi2]
      simp only []
      exact ih (j + 1) _ (by omega) (by omega)
    · rw [List.getElem?_eq_none (by omega)]

theorem update_crc_in_range (c n : Nat) (data : List Nat) (h : n % 2 ^ 16 ≤ data.length) :
    (update_crc c data n).isSome = true := by
  unfold update_crc
  rw [update_crc_loop_eq data _ 0 _ (by omega)]
  rfl

theorem update_crc_overrun (c n : Nat) (data : List Nat) (h : data.length < n % 2 ^ 16) :
    update_crc c data n = none := by
  unfold update_crc
  exact update_crc_loop_overrun data _ 0 _ (Nat.zero_le _) (by omega)

theorem init_functions_no_fault (env : Env) (s : State) :
    (sendTorqueDisable env s).is_fault = false ∧ (setDriveMode env s).is_fault = false ∧
    (setOperatingMode env s).is_fault = false ∧ (sendTorqueEnable env s).is_fault = false := by
  rw [sendTorqueDisable_eq, setDriveMode_eq, setOperatingMode_eq, sendTorqueEnable_eq]
  cases env.write_returns s.trace <;> exact ⟨rfl, rfl, rfl, rfl⟩

/-! ## Incremental computation and single-bit changes -/

theorem crc_fold_zeros (n : Nat) : crc_fold 0 (List.replicate n 0) = 0 := by
  induction n with
  | zero => rfl
  | succ n ih =>
    rw [List.replicate_succ]
    simp only [crc_fold, List.foldl_cons] at ih ⊢
    have h0 : crc_step 0 0 = 0 := by decide
    rw [h0]
    exact ih

theorem update_crc_zeros (n : Nat) (hn : n < 2 ^ 16) :
    update_crc 0 (List.replicate n 0) n = some 0 := by
  rw [update_crc_eq_fold 0 _ n hn (by rw [List.length_replicate])]
  have ht : (List.replicate n 0).take n = List.replicate n (0 : Nat) := by
    rw [List.take_of_length_le (by rw [List.length_replicate])]
  rw [ht, Nat.zero_mod, crc_fold_zeros]

theorem update_crc_size_wraps (c n : Nat) (data : List Nat) (hn : n % 2 ^ 16 = 0) :
    update_crc c data n = some (c % 2 ^ 16) := by
  unfold update_crc
  rw [hn]
  rfl

theorem update_crc_append (c : Nat) (a b : List Nat) (hc : c < 2 ^ 16)
    (hn : a.length + b.length < 2 ^ 16) :
    (update_crc c a a.length).bind (fun first_crc => update_crc first_crc b b.length) =
      update_crc c (a ++ b) (a ++ b).length := by
  have hlt : crc_fold c a < 2 ^ 16 := crc_fold_lt a c hc
  rw [update_crc_eq_fold c a a.length (by omega) (le_refl _),
    update_crc_eq_fold c (a ++ b) (a ++ b).length (by rw [List.length_append]; exact hn)
      (le_refl _)]
  simp only [Option.some_bind, List.take_length]
  rw [update_crc_eq_fold _ b b.length (by omega) (le_refl _), List.take_length,
    Nat.mod_eq_of_lt hc, Nat.mod_eq_of_lt hlt]
  simp only [crc_fold, List.foldl_append]

theorem xor_shift_rearrange (c d b e : Nat) :
    (c ^^^ d) ^^^ ((b ^^^ e) <<< 8) = (c ^^^ (b <<< 8)) ^^^ (d ^^^ (e <<< 8)) := by
  apply Nat.eq_of_testBit_eq
  intro k
  simp only [Nat.testBit_xor, Nat.testBit_shiftLeft]
  by_cases h8 : 8 ≤ k
  · simp only [h8, decide_True, Bool.true_and, ge_iff_le]
    cases c.testBit k <;> cases d.testBit k <;> cases b.testBit (k - 8) <;>
      cases e.testBit (k - 8) <;> rfl
  · simp only [h8, decide_False, Bool.false_and, ge_iff_le]
    cases c.testBit k <;> cases d.testBit k <;> rfl

theorem crc_step_xor (c d b e : Nat) (hc : c < 2 ^ 16) (hd : d < 2 ^ 16) (hb : b < 256)
    (he : e < 256) : crc_step (c ^^^ d) (b ^^^ e) = crc_step c b ^^^ crc_step d e := by
  have hcd : c ^^^ d < 2 ^ 16 := Nat.xor_lt_two_pow hc hd
  have hbe : b ^^^ e < 256 := Nat.xor_lt_two_pow (n := 8) hb he
  rw [crc_step_eq_bitwise _ _ hcd hbe, crc_step_eq_bitwise c b hc hb,
    crc_step_eq_bitwise d e hd he, xor_shift_rearrange, poly_steps_xor]

theorem poly_step_nonzero (x : Nat) (hx : x < 2 ^ 16) (h0 : x ≠ 0) :
    poly_step x < 2 ^ 16 ∧ poly_step x ≠ 0 := by
  unfold poly_step
  by_cases hb : x.testBit 15 = true
  · rw [if_pos hb]
    refine ⟨Nat.xor_lt_two_pow (Nat.mod_lt _ (by norm_num)) (by norm_num), ?_⟩
    intro h
    have h1 : ((x <<< 1 % 2 ^ 16) ^^^ 0x8005).testBit 0 = true := by
      have h5 : Nat.testBit 32773 0 = true := by decide
      rw [Nat.testBit_xor, Nat.testBit_mod_two_pow, Nat.testBit_shiftLeft, h5]
      simp
    rw [h] at h1
    simp at h1
  · rw [if_neg hb]
    have hb' : x / 2 ^ 15 % 2 ≠ 1 := by
      intro h
      apply hb
      rw [Nat.testBit_to_div_mod]
      exact decide_eq_true h
    have hlt : x < 2 ^ 15 := by omega
    rw [Nat.shiftLeft_eq]
    omega

theorem poly_steps_nonzero (k : Nat) :
    ∀ x : Nat, x < 2 ^ 16 → x ≠ 0 → poly_steps k x < 2 ^ 16 ∧ poly_steps k x ≠ 0 := by
  induction k with
  | zero => intro x hx h0; exact ⟨hx, h0⟩
  | succ k ih =>
    intro x hx h0
    obtain ⟨h1, h2⟩ := poly_step_nonzero x hx h0
    exact ih _ h1 h2

theorem crc_step_zero_byte_nonzero (d : Nat) (hd : d < 2 ^ 16) (h0 : d ≠ 0) :
    crc_step d 0 ≠ 0 := by
  rw [crc_step_eq_bitwise d 0 hd (by norm_num)]
  have : d ^^^ (0 <<< 8) = d := by simp
  rw [this]
  exact (poly_steps_nonzero 8 d hd h0).2

theorem crc_fold_zero_bytes_nonzero (n : Nat) :
    ∀ d : Nat, d < 2 ^ 16 → d ≠ 0 → crc_fold d (List.replicate n 0) ≠ 0 := by
  induction n with
  | zero => intro d _ h0; exact h0
  | succ n ih =>
    intro d hd h0
    rw [List.replicate_succ]
    simp only [crc_fold, List.foldl_cons] at ih ⊢
    exact ih _ (crc_step_lt d 0) (crc_step_zero_byte_nonzero d hd h0)

theorem crc_fold_xor (post : List Nat) (hb : ∀ b ∈ post, b < 256) :
    ∀ c d : Nat, c < 2 ^ 16 → d < 2 ^ 16 →
      crc_fold (c ^^^ d) post = crc_fold c post ^^^ crc_fold d (List.replicate post.length 0) := by
  induction post with
  | nil => intro c d _ _; rfl
  | cons b rest ih =>
    intro c d hc hd
    have hb0 : b < 256 := hb b (List.mem_cons_self _ _)
    have hrest : ∀ x ∈ rest, x < 256 := fun x hx => hb x (List.mem_cons_of_mem _ hx)
    have hstep : crc_step (c ^^^ d) b = crc_step c b ^^^ crc_step d 0 := by
      have := crc_step_xor c d b 0 hc hd hb0 (by norm_num)
      rwa [Nat.xor_zero] at this
    rw [List.length_cons, List.replicate_succ]
    simp only [crc_fold, List.foldl_cons] at ih ⊢
    rw [hstep]
    exact ih hrest _ _ (crc_step_lt c b) (crc_step_lt d 0)

theorem crc_step_of_flipped_byte (c b j : Nat) (hc : c < 2 ^ 16) (hb : b < 256) (hj : j < 8) :
    crc_step c (b ^^^ 2 ^ j) = crc_step c b ^^^ crc_step 0 (2 ^ j) ∧
      crc_step 0 (2 ^ j) ≠ 0 := by
  have hp : 2 ^ j < 256 := by
    have : 2 ^ j < 2 ^ 8 := Nat.pow_lt_pow_right (by norm_num) hj
    omega
  constructor
  · have := crc_step_xor c 0 b (2 ^ j) hc (by norm_num) hb hp
    rwa [Nat.xor_zero] at this
  · have hall : ∀ k : Nat, k < 8 → crc_step 0 (2 ^ k) ≠ 0 := by decide
    exact hall j hj

theorem flip_bit_eq (m : List Nat) (i j : Nat) (hi : i < m.length) :
    flip_bit m i j = m.take i ++ (m[i] ^^^ 2 ^ j) :: m.drop (i + 1) := by
  unfold flip_bit
  rw [List.set_eq_take_append_cons_drop, if_pos hi, List.getD_eq_getElem _ _ hi]

theorem flip_bit_length (m : List Nat) (i j : Nat) : (flip_bit m i j).length = m.length := by
  unfold flip_bit
  rw [List.length_set]

theorem crc_fold_flip_bit (m : List Nat) (hb : ∀ b ∈ m, b < 256) (i j : Nat)
    (hi : i < m.length) (hj : j < 8) :
    crc_fold 0 (flip_bit m i j) ≠ crc_fold 0 m := by
  have hsplit : m = m.take i ++ m[i] :: m.drop (i + 1) := by
    rw [← List.drop_eq_getElem_cons hi, List.take_append_drop]
  have hbi : m[i] < 256 := hb _ (List.getElem_mem _)
  have hpost : ∀ b ∈ m.drop (i + 1), b < 256 := fun b h => hb b (List.mem_of_mem_drop h)
  have hc : crc_fold 0 (m.take i) < 2 ^ 16 := crc_fold_lt _ 0 (by norm_num)
  obtain ⟨hstep, hnz⟩ := crc_step_of_flipped_byte (crc_fold 0 (m.take i)) m[i] j hc hbi hj
  have hflip : crc_fold 0 (flip_bit m i j) =
      crc_fold 0 m ^^^
        crc_fold (crc_step 0 (2 ^ j)) (List.replicate (m.drop (i + 1)).length 0) := by
    have hm : crc_fold 0 m =
        crc_fold (crc_step (crc_fold 0 (m.take i)) m[i]) (m.drop (i + 1)) := by
      conv => lhs; rw [hsplit]
      simp only [crc_fold, List.foldl_append, List.foldl_cons]
    have hf : crc_fold 0 (flip_bit m i j) =
        crc_fold (crc_step (crc_fold 0 (m.take i)) (m[i] ^^^ 2 ^ j)) (m.drop (i + 1)) := by
      rw [flip_bit_eq m i j hi]
      simp only [crc_fold, List.foldl_append, List.foldl_cons]
    rw [hm, hf, hstep]
    exact crc_fold_xor _ hpost _ _ (crc_step_lt _ _) (crc_step_lt _ _)
  rw [hflip]
  intro h
  have hz := crc_fold_zero_bytes_nonzero (m.drop (i + 1)).length _ (crc_step_lt 0 (2 ^ j)) hnz
  apply hz
  have h2 := congrArg (fun x => crc_fold 0 m ^^^ x) h
  simp only [Nat.xor_cancel_left, Nat.xor_self] at h2
  exact h2

theorem flip_bit_take (p : List Nat) (i j k : Nat) (hik : i < k) :
    (flip_bit p i j).take k = flip_bit (p.take k) i j := by
  unfold flip_bit
  rw [← List.set_take]
  have h : (p.take k).getD i 0 = p.getD i 0 := by
    rw [List.getD_eq_getElem?_getD, List.getD_eq_getElem?_getD, List.getElem?_take_of_lt hik]
  rw [h]

theorem flip_bit_drop (p : List Nat) (i j k : Nat) (hik : i < k) :
    (flip_bit p i j).drop k = p.drop k := by
  unfold flip_bit
  exact List.drop_set_of_lt _ _ hik

theorem flip_bit_ne (m : List Nat) (i j : Nat) (hi : i < m.length) : flip_bit m i j ≠ m := by
  intro h
  have h1 : (flip_bit m i j)[i]? = m[i]? := by rw [h]
  unfold flip_bit at h1
  rw [List.getElem?_set_self hi, List.getD_eq_getElem _ _ hi, List.getElem?_eq_getElem hi] at h1
  have h2 : m[i] ^^^ 2 ^ j = m[i] ^^^ 0 := by
    rw [Nat.xor_zero]; exact Option.some.inj h1
  have h3 := Nat.xor_right_inj.1 h2
  have : 0 < 2 ^ j := Nat.pos_pow_of_pos j (by norm_num)
  omega

theorem update_crc_flip_bit (m : List Nat) (hb : ∀ b ∈ m, b < 256) (hn : m.length < 2 ^ 16)
    (i j : Nat) (hi : i < m.length) (hj : j < 8) :
    update_crc 0 (flip_bit m i j) m.length ≠ update_crc 0 m m.length := by
  rw [update_crc_eq_fold 0 _ m.length hn (by rw [flip_bit_length]),
    update_crc_eq_fold 0 m m.length hn (le_refl _), List.take_length,
    List.take_of_length_le (by rw [flip_bit_length])]
  intro h
  exact crc_fold_flip_bit m hb i j hi hj (Option.some.inj h)

theorem flipped_frame_mismatch (p : List Nat) (c0 : Nat) (hlen : 2 ≤ p.length)
    (hn : p.length < 2 ^ 16) (hb : ∀ b ∈ p, b < 256)
    (hcrc : update_crc 0 (p.take (p.length - 2)) (p.length - 2) = some c0)
    (htail : p.drop (p.length - 2) = [c0 % 256, c0 / 256])
    (i j : Nat) (hi : i < p.length - 2) (hj : j < 8) :
    ¬ ∃ crc : Nat,
      update_crc 0 ((flip_bit p i j).take (p.length - 2)) (p.length - 2) = some crc ∧
      (flip_bit p i j).drop (p.length - 2) = [crc % 256, crc / 256] := by
  rintro ⟨crc, h1, h2⟩
  have hk : (p.take (p.length - 2)).length = p.length - 2 := by
    rw [List.length_take]; omega
  have hbk : ∀ b ∈ p.take (p.length - 2), b < 256 := fun b h => hb b (List.mem_of_mem_take h)
  have hne := update_crc_flip_bit (p.take (p.length - 2)) hbk (by omega) i j (by omega) hj
  rw [hk, ← flip_bit_take p i j _ hi, hcrc, h1] at hne
  rw [flip_bit_drop p i j _ hi, htail] at h2
  have hlt : crc < 2 ^ 16 := by
    have := update_crc_eq_fold 0 ((flip_bit p i j).take (p.length - 2)) (p.length - 2)
      (by omega) (by rw [List.length_take, flip_bit_length]; omega)
    rw [this] at h1
    have h3 := Option.some.inj h1
    rw [← h3]
    exact crc_fold_lt _ _ (by norm_num)
  simp only [List.cons.injEq, and_true] at h2
  apply hne
  have : crc = c0 := by omega
  rw [this]

theorem init_frames_facts :
    ∀ p ∈ init_frames, 2 ≤ p.length ∧ p.length < 2 ^ 16 ∧ (∀ b ∈ p, b < 256) ∧
      ∃ c0 : Nat, update_crc 0 (p.take (p.length - 2)) (p.length - 2) = some c0 ∧
        c0 < 2 ^ 16 ∧ p.drop (p.length - 2) = [c0 % 256, c0 / 256] := by
  intro p hp
  simp only [init_frames, List.mem_cons, List.mem_singleton, List.not_mem_nil, or_false] at hp
  rcases hp with h | h | h | h
  · subst h; exact ⟨by decide, by decide, by decide, 0x67CD, by decide, by decide, by decide⟩
  · subst h; exact ⟨by decide, by decide, by decide, 0xE246, by decide, by decide, by decide⟩
  · subst h; exact ⟨by decide, by decide, by decide, 0xE24A, by decide, by decide, by decide⟩
  · subst h; exact ⟨by decide, by decide, by decide, 0xE7C8, by decide, by decide, by decide⟩

theorem sent_frame_facts (address : Nat) (v : Int) (ha : address < 256) :
    2 ≤ (sent_frame address v).length ∧ (sent_frame address v).length < 2 ^ 16 ∧
    (∀ b ∈ sent_frame address v, b < 256) ∧
    ∃ c0 : Nat,
      update_crc 0 ((sent_frame address v).take ((sent_frame address v).length - 2))
        ((sent_frame address v).length - 2) = some c0 ∧
      c0 < 2 ^ 16 ∧
      (sent_frame address v).drop ((sent_frame address v).length - 2) =
        [c0 % 256, c0 / 256] := by
  refine ⟨by rw [sent_frame_length]; decide, by rw [sent_frame_length]; decide, ?_,
    crc_roundtrip_motion address v⟩
  intro b hb
  simp only [sent_frame, motion_frame, motion_header, le_bytes32, List.cons_append,
    List.nil_append, List.mem_cons, List.mem_singleton, List.not_mem_nil, or_false] at hb
  rcases hb with h | h | h | h | h | h | h | h | h | h | h | h | h | h | h | h <;>
    subst h <;> omega

/-! ## Theorems -/

/-- C1: for every cached triple, when the transport accepts the writes, one
call of `updateDynamixel` returns having appended to the trace exactly three
writes, for the addresses `0x6C`, `0x70`, `0x74` in that order with the values
`acc_`, `vel_`, `pos_`, each immediately followed by a 20 ms sleep.  Each write
is the ten bytes `FF FF FD 00 00 09 00 03 A 00`, the four little-endian bytes
of the value (`motion_header`), and the low and high byte of `update_crc` run
from `0` over those 14 bytes (`motion_frame`).  All three cached values are
sent and none of them is changed. -/
theorem updateDynamixel_emits_three_writes (env : Env) (s : State)
    (hw : ∀ t, env.write_returns t = true) :
    ∃ acc_crc vel_crc pos_crc : Nat,
      update_crc 0 (motion_header 0x6C s.acc_) 14 = some acc_crc ∧
      update_crc 0 (motion_header 0x70 s.vel_) 14 = some vel_crc ∧
      update_crc 0 (motion_header 0x74 s.pos_) 14 = some pos_crc ∧
      updateDynamixel env s = .returned { s with trace := s.trace ++
        [.write (motion_frame 0x6C s.acc_ acc_crc), .sleep 20,
         .write (motion_frame 0x70 s.vel_ vel_crc), .sleep 20,
         .write (motion_frame 0x74 s.pos_ pos_crc), .sleep 20] } :=
  ⟨_, _, _, update_crc_motion_header 0x6C s.acc_, update_crc_motion_header 0x70 s.vel_,
    update_crc_motion_header 0x74 s.pos_, updateDynamixel_returns env s hw⟩

/-- Witness for C1: the burst of a controller caching `(7, -3, 100000)` on a
transport that accepts every write. -/
theorem updateDynamixel_emits_three_writes_witness :
    (∀ t, quiet_env.write_returns t = true) ∧
    ∃ acc_crc vel_crc pos_crc : Nat,
      update_crc 0 (motion_header 0x6C (idle_state 7 (-3) 100000).acc_) 14 = some acc_crc ∧
      update_crc 0 (motion_header 0x70 (idle_state 7 (-3) 100000).vel_) 14 = some vel_crc ∧
      update_crc 0 (motion_header 0x74 (idle_state 7 (-3) 100000).pos_) 14 = some pos_crc ∧
      updateDynamixel quiet_env (idle_state 7 (-3) 100000) =
        .returned { idle_state 7 (-3) 100000 with trace := (idle_state 7 (-3) 100000).trace ++
          [.write (motion_frame 0x6C (idle_state 7 (-3) 100000).acc_ acc_crc), .sleep 20,
           .write (motion_frame 0x70 (idle_state 7 (-3) 100000).vel_ vel_crc), .sleep 20,
           .write (motion_frame 0x74 (idle_state 7 (-3) 100000).pos_ pos_crc), .sleep 20] } :=
  ⟨fun _ => rfl,
    updateDynamixel_emits_three_writes quiet_env (idle_state 7 (-3) 100000) (fun _ => rfl)⟩

/-- C2: when the serial port opens and the transport accepts the writes, the
constructor returns with a trace holding exactly four writes, in the order
torque-disable (address `0x40`, value 0), drive-mode (`0x0A`, 0),
operating-mode (`0x0B`, 4), torque-enable (`0x40`, 1), each immediately
followed by a 100 ms sleep; each write is the 11 bytes
`FF FF FD 00 00 06 00 03 addr 00 value` followed by the low and high byte of
`update_crc` run from `0` over those 11 bytes. -/
theorem DynamixelController_emits_four_writes (env : Env) (ho : env.open_raises = false)
    (hi : env.is_open = true) (hw : ∀ t, env.write_returns t = true) :
    ∃ c1 c2 c3 c4 : Nat,
      update_crc 0 (config_header 0x40 0x00) 11 = some c1 ∧
      update_crc 0 (config_header 0x0A 0x00) 11 = some c2 ∧
      update_crc 0 (config_header 0x0B 0x04) 11 = some c3 ∧
      update_crc 0 (config_header 0x40 0x01) 11 = some c4 ∧
      DynamixelController env = .returned
        { acc_ := env.acc_storage, vel_ := env.vel_storage, pos_ := env.pos_storage,
          subscribed := true,
          trace :=
            [.info "Serial port opened successfully" [],
             .write (config_frame 0x40 0x00 c1), .sleep 100, .info "Torque disabled" [],
             .write (config_frame 0x0A 0x00 c2), .sleep 100, .info "Drive mode set" [],
             .write (config_frame 0x0B 0x04 c3), .sleep 100,
             .info "Operating mode set to Extended Position Control" [],
             .write (config_frame 0x40 0x01 c4), .sleep 100, .info "Torque enabled" [],
             .info "Dynamixel initialization completed" []] } :=
  ⟨0x67CD, 0xE246, 0xE24A, 0xE7C8, by decide, by decide, by decide, by decide,
    DynamixelController_returns env ho hi hw⟩

/-- Witness for C2: construction in `quiet_env`. -/
theorem DynamixelController_emits_four_writes_witness :
    quiet_env.open_raises = false ∧ quiet_env.is_open = true ∧
    (∀ t, quiet_env.write_returns t = true) ∧
    ∃ c1 c2 c3 c4 : Nat,
      update_crc 0 (config_header 0x40 0x00) 11 = some c1 ∧
      update_crc 0 (config_header 0x0A 0x00) 11 = some c2 ∧
      update_crc 0 (config_header 0x0B 0x04) 11 = some c3 ∧
      update_crc 0 (config_header 0x40 0x01) 11 = some c4 ∧
      DynamixelController quiet_env = .returned
        { acc_ := quiet_env.acc_storage, vel_ := quiet_env.vel_storage,
          pos_ := quiet_env.pos_storage, subscribed := true,
          trace :=
            [.info "Serial port opened successfully" [],
             .write (config_frame 0x40 0x00 c1), .sleep 100, .info "Torque disabled" [],
             .write (config_frame 0x0A 0x00 c2), .sleep 100, .info "Drive mode set" [],
             .write (config_frame 0x0B 0x04 c3), .sleep 100,
             .info "Operating mode set to Extended Position Control" [],
             .write (config_frame 0x40 0x01 c4), .sleep 100, .info "Torque enabled" [],
             .info "Dynamixel initialization completed" []] } :=
  ⟨rfl, rfl, fun _ => rfl,
    DynamixelController_emits_four_writes quiet_env rfl rfl (fun _ => rfl)⟩

/-- C3: for every byte sequence of length below `2 ^ 16`, `update_crc` from
`0` over the whole sequence, which truncates the accumulator to 16 bits in
every iteration, returns the value of the specification's algorithm, which
keeps an unbounded accumulator and masks with `0xFFFF` once at the end. -/
theorem update_crc_refines_reference (msg : List Nat) (hn : msg.length < 2 ^ 16) :
    update_crc 0 msg msg.length = some (reference_crc msg) := by
  rw [update_crc_eq_fold 0 msg msg.length hn (le_refl _), List.take_length]
  have h := crc_fold_mod msg 0
  have hm : (0xFFFF : Nat) = 2 ^ 16 - 1 := by norm_num
  rw [reference_crc, hm, Nat.and_pow_two_sub_one_eq_mod, ← h]

/-- Witness for C3: the first 11 bytes of the torque-disable write. -/
theorem update_crc_refines_reference_witness :
    (config_header 0x40 0x00).length < 2 ^ 16 ∧
    update_crc 0 (config_header 0x40 0x00) (config_header 0x40 0x00).length =
      some (reference_crc (config_header 0x40 0x00)) :=
  ⟨by decide, update_crc_refines_reference (config_header 0x40 0x00) (by decide)⟩

/-- C4 as stated fails for a sequence too long for the `uint16_t` size
parameter: for 65536 zero bytes followed by the byte `1`, the size 65537
arrives as 1, so `update_crc` reads only the first byte and returns `0`,
while the bit-by-bit CRC of the whole sequence is `0x8005`. -/
theorem update_crc_long_sequence_differs :
    (∀ b ∈ List.replicate 65536 0 ++ [1], b < 256) ∧
    update_crc 0 (List.replicate 65536 0 ++ [1]) (List.replicate 65536 0 ++ [1]).length =
      some 0 ∧
    bitwise_crc (List.replicate 65536 0 ++ [1]) = 0x8005 := by
  refine ⟨zeros_then_one_bytes 65536, ?_, bitwise_crc_zeros_then_one 65536⟩
  rw [List.length_append, List.length_replicate, List.length_singleton]
  exact update_crc_zeros_then_one 65536 (by decide) (by decide)

/-- C4, amended: every entry of `crc_table` is the 16-bit value obtained from
`i << 8` by eight steps of shift-left-and-XOR-`0x8005`-when-a-one-falls-out,
and therefore, for every sequence of bytes of length below `2 ^ 16`,
`update_crc` from `0` returns the bit-by-bit CRC-16 with polynomial `0x8005`,
initial value `0`, most significant bit first and no final XOR. -/
theorem update_crc_is_bitwise_crc :
    crc_table.length = 256 ∧
    (∀ i : Nat, i < 256 → crc_table[i]? = some (generated_entry i)) ∧
    ∀ msg : List Nat, (∀ b ∈ msg, b < 256) → msg.length < 2 ^ 16 →
      update_crc 0 msg msg.length = some (bitwise_crc msg) := by
  refine ⟨crc_table_length, ?_, ?_⟩
  · intro i hi
    have hlen : i < crc_table.length := by rw [crc_table_length]; exact hi
    rw [List.getElem?_eq_getElem hlen, ← List.getD_eq_getElem _ 0 hlen, crc_table_getD i hi]
  · intro msg hb hn
    rw [update_crc_eq_fold 0 msg msg.length hn (le_refl _), List.take_length]
    exact congrArg some (crc_fold_eq_bitwise msg hb 0 (by norm_num))

/-- Witness for the amended C4: the first 11 bytes of the torque-disable write. -/
theorem update_crc_is_bitwise_crc_witness :
    (∀ b ∈ config_header 0x40 0x00, b < 256) ∧ (config_header 0x40 0x00).length < 2 ^ 16 ∧
    update_crc 0 (config_header 0x40 0x00) (config_header 0x40 0x00).length =
      some (bitwise_crc (config_header 0x40 0x00)) :=
  ⟨by decide, by decide,
    update_crc_is_bitwise_crc.2.2 (config_header 0x40 0x00) (by decide) (by decide)⟩

/-- C5: for every packet written by the constructor and every packet written
by an update burst (for every cached triple), on any transport, running
`update_crc` from `0` over the packet without its last two bytes returns a
16-bit value whose low byte and high byte are the packet's last two bytes, in
that order.  The bytes covered are all the preceding ones: header, id, length
field, instruction, address and value. -/
theorem emitted_packets_carry_their_crc (env : Env) (acc vel pos : Int) (p : List Nat)
    (hp : p ∈ writes (DynamixelController env).state.trace ∨
      p ∈ writes (updateDynamixel env (idle_state acc vel pos)).state.trace) :
    ∃ crc : Nat,
      update_crc 0 (p.take (p.length - 2)) (p.length - 2) = some crc ∧
      crc < 2 ^ 16 ∧
      p.drop (p.length - 2) = [crc % 256, crc / 256] := by
  rcases hp with hp | hp
  · have hp := construction_writes_subset env p hp
    simp only [List.mem_cons, List.mem_singleton, List.not_mem_nil, or_false] at hp
    rcases hp with h | h | h | h
    · subst h; exact ⟨0x67CD, by decide, by decide, by decide⟩
    · subst h; exact ⟨0xE246, by decide, by decide, by decide⟩
    · subst h; exact ⟨0xE24A, by decide, by decide, by decide⟩
    · subst h; exact ⟨0xE7C8, by decide, by decide, by decide⟩
  · have hp := burst_writes_subset env acc vel pos p hp
    simp only [List.mem_cons, List.mem_singleton, List.not_mem_nil, or_false] at hp
    rcases hp with h | h | h
    · subst h; exact crc_roundtrip_motion 0x6C acc
    · subst h; exact crc_roundtrip_motion 0x70 vel
    · subst h; exact crc_roundtrip_motion 0x74 pos

/-- Witness for C5: the goal-position packet of the burst for `(0, 0, 100000)`. -/
theorem emitted_packets_carry_their_crc_witness :
    (goal_position_100000 ∈ writes (DynamixelController quiet_env).state.trace ∨
      goal_position_100000 ∈
        writes (updateDynamixel quiet_env (idle_state 0 0 100000)).state.trace) ∧
    ∃ crc : Nat,
      update_crc 0 (goal_position_100000.take (goal_position_100000.length - 2))
          (goal_position_100000.length - 2) = some crc ∧
      crc < 2 ^ 16 ∧
      goal_position_100000.drop (goal_position_100000.length - 2) = [crc % 256, crc / 256] :=
  ⟨Or.inr (by decide),
    emitted_packets_carry_their_crc quiet_env 0 0 100000 goal_position_100000
      (Or.inr (by decide))⟩

/-- C6: on any transport, in every packet written by the constructor the
length field (bytes 5 and 6, little-endian) is 6, the one-byte payload plus 5;
in every packet of an update burst it is 9, the four-byte payload plus 5; in
both cases it equals the number of bytes from index 7 through the last CRC
byte, which is the number of bytes written minus 7. -/
theorem length_field_counts_the_rest (env : Env) (acc vel pos : Int) :
    (∀ p ∈ writes (DynamixelController env).state.trace,
      p[5]? = some 6 ∧ p[6]? = some 0 ∧ (payload p).length = 1 ∧
      length_field p = (payload p).length + 5 ∧
      length_field p = (p.drop 7).length ∧ length_field p = p.length - 7) ∧
    (∀ p ∈ writes (updateDynamixel env (idle_state acc vel pos)).state.trace,
      p[5]? = some 9 ∧ p[6]? = some 0 ∧ (payload p).length = 4 ∧
      length_field p = (payload p).length + 5 ∧
      length_field p = (p.drop 7).length ∧ length_field p = p.length - 7) := by
  have hm : ∀ (a : Nat) (v : Int) (c : Nat),
      (motion_frame a v c)[5]? = some 9 ∧ (motion_frame a v c)[6]? = some 0 ∧
      (payload (motion_frame a v c)).length = 4 ∧
      length_field (motion_frame a v c) = (payload (motion_frame a v c)).length + 5 ∧
      length_field (motion_frame a v c) = ((motion_frame a v c).drop 7).length ∧
      length_field (motion_frame a v c) = (motion_frame a v c).length - 7 := by
    intro a v c
    rw [motion_frame_length_field, motion_frame_payload, List.length_drop,
      motion_frame_length]
    simp [motion_frame, motion_header, le_bytes32]
  constructor
  · intro p hp
    have hp := construction_writes_subset env p hp
    simp only [List.mem_cons, List.mem_singleton, List.not_mem_nil, or_false] at hp
    rcases hp with h | h | h | h <;> subst h <;> decide
  · intro p hp
    have hp := burst_writes_subset env acc vel pos p hp
    simp only [List.mem_cons, List.mem_singleton, List.not_mem_nil, or_false] at hp
    rcases hp with h | h | h <;> subst h <;> exact hm _ _ _

/-- Witness for C6: the torque-disable packet of a construction in
`quiet_env` has length field 6 and 13 bytes. -/
theorem length_field_counts_the_rest_witness :
    config_frame 0x40 0x00 0x67CD ∈ writes (DynamixelController quiet_env).state.trace ∧
    length_field (config_frame 0x40 0x00 0x67CD) = (config_frame 0x40 0x00 0x67CD).length - 7 :=
  ⟨by decide,
    ((length_field_counts_the_rest quiet_env 0 0 100000).1
      (config_frame 0x40 0x00 0x67CD) (by decide)).2.2.2.2.2⟩

/-- C7 as stated fails on the first packet the program writes: the
torque-disable write carries the one-byte payload `00` and is 13 bytes long,
not `1 + 10 = 11`; the goal-position write carries four bytes and is 16 bytes
long, not 14. -/
theorem written_length_is_not_payload_plus_ten :
    config_frame 0x40 0x00 0x67CD ∈ writes (DynamixelController quiet_env).state.trace ∧
    payload (config_frame 0x40 0x00 0x67CD) = [0x00] ∧
    (config_frame 0x40 0x00 0x67CD).length = 13 ∧
    (config_frame 0x40 0x00 0x67CD).length ≠
      (payload (config_frame 0x40 0x00 0x67CD)).length + 10 ∧
    goal_position_100000 ∈
      writes (updateDynamixel quiet_env (idle_state 0 0 100000)).state.trace ∧
    payload goal_position_100000 = [0xA0, 0x86, 0x01, 0x00] ∧
    goal_position_100000.length = 16 ∧
    goal_position_100000.length ≠ (payload goal_position_100000).length + 10 := by
  decide

/-- C7, amended: on any transport, every packet written by the constructor
carries a one-byte payload, the register value 0, 4 or 1, and is 13 bytes
long; every packet of an update burst carries the four bytes of one of the
cached values and is 16 bytes long; in both cases the number of bytes written
is the payload length plus 12. -/
theorem written_length_is_payload_plus_twelve (env : Env) (acc vel pos : Int) :
    (∀ p ∈ writes (DynamixelController env).state.trace,
      payload p ∈ [[0x00], [0x04], [0x01]] ∧ (payload p).length = 1 ∧ p.length = 13 ∧
      p.length = (payload p).length + 12) ∧
    (∀ p ∈ writes (updateDynamixel env (idle_state acc vel pos)).state.trace,
      payload p ∈ [le_bytes32 acc, le_bytes32 vel, le_bytes32 pos] ∧
      (payload p).length = 4 ∧ p.length = 16 ∧ p.length = (payload p).length + 12) := by
  constructor
  · intro p hp
    have hp := construction_writes_subset env p hp
    simp only [List.mem_cons, List.mem_singleton, List.not_mem_nil, or_false] at hp
    rcases hp with h | h | h | h <;> subst h <;> decide
  · intro p hp
    have hp := burst_writes_subset env acc vel pos p hp
    simp only [List.mem_cons, List.mem_singleton, List.not_mem_nil, or_false] at hp
    rcases hp with h | h | h <;> subst h <;>
      rw [motion_frame_payload, motion_frame_length] <;> simp [le_bytes32]

/-- Witness for the amended C7: the goal-position packet of the burst for
`(0, 0, 100000)` in `quiet_env` is 16 bytes long. -/
theorem written_length_is_payload_plus_twelve_witness :
    goal_position_100000 ∈
      writes (updateDynamixel quiet_env (idle_state 0 0 100000)).state.trace ∧
    goal_position_100000.length = 16 :=
  ⟨by decide,
    ((written_length_is_payload_plus_twelve quiet_env 0 0 100000).2
      goal_position_100000 (by decide)).2.2.1⟩

/-- C8: for every signed 32-bit triple, bytes 10..13 of each packet of the
burst are the four bytes of the two's-complement representation of the cached
value, least significant first, and reading them back as a little-endian
signed 32-bit integer returns the value; the packet stays 16 bytes long
whatever the value, so nothing is stuffed or clamped.  The value 100000 is
sent as `A0 86 01 00`. -/
theorem motion_value_bytes_decode (env : Env) (hw : ∀ t, env.write_returns t = true)
    (acc vel pos : Int)
    (hacc : -2 ^ 31 ≤ acc ∧ acc < 2 ^ 31) (hvel : -2 ^ 31 ≤ vel ∧ vel < 2 ^ 31)
    (hpos : -2 ^ 31 ≤ pos ∧ pos < 2 ^ 31) :
    (writes (updateDynamixel env (idle_state acc vel pos)).state.trace).map
        (fun p => (p.drop 10).take 4) = [le_bytes32 acc, le_bytes32 vel, le_bytes32 pos] ∧
    (writes (updateDynamixel env (idle_state acc vel pos)).state.trace).map
        (fun p => decode_le_i32 ((p.drop 10).take 4)) = [acc, vel, pos] ∧
    (writes (updateDynamixel env (idle_state acc vel pos)).state.trace).map List.length =
      [16, 16, 16] ∧
    le_bytes32 100000 = [0xA0, 0x86, 0x01, 0x00] := by
  rw [writes_burst env hw]
  simp only [List.map_cons, List.map_nil, motion_frame_value, motion_frame_length,
    decode_le_bytes32 acc hacc.1 hacc.2, decode_le_bytes32 vel hvel.1 hvel.2,
    decode_le_bytes32 pos hpos.1 hpos.2, true_and]
  decide

/-- Witness for C8: the burst for `(-1, -2147483648, 100000)`; the bytes of
`-1` are `FF FF FF FF`, which contain the header pattern. -/
theorem motion_value_bytes_decode_witness :
    (∀ t, quiet_env.write_returns t = true) ∧
    (-2 ^ 31 ≤ (-1 : Int) ∧ (-1 : Int) < 2 ^ 31) ∧
    (-2 ^ 31 ≤ (-2147483648 : Int) ∧ (-2147483648 : Int) < 2 ^ 31) ∧
    (-2 ^ 31 ≤ (100000 : Int) ∧ (100000 : Int) < 2 ^ 31) ∧
    (writes (updateDynamixel quiet_env (idle_state (-1) (-2147483648) 100000)).state.trace).map
        (fun p => decode_le_i32 ((p.drop 10).take 4)) = [-1, -2147483648, 100000] :=
  ⟨fun _ => rfl, by decide, by decide, by decide,
    (motion_value_bytes_decode quiet_env (fun _ => rfl) (-1) (-2147483648) 100000
      (by decide) (by decide) (by decide)).2.1⟩

/-- C9, evaluated on the code: the constructor assigns nothing to `acc_`,
`vel_`, `pos_`, so after construction they hold what their storage held.  With
storage holding `acc_ = 1`, the burst triggered by the first notification,
position 100000, carries `01 00 00 00` in the acceleration packet; only when
the storage happens to hold zeros does it carry `00 00 00 00`. -/
theorem first_burst_sends_storage_contents :
    (DynamixelController stale_env).state.acc_ = 1 ∧
    ((writes (main stale_env [.pos 100000]).state.trace).drop 4).map
        (fun p => (p.drop 10).take 4) =
      [[0x01, 0x00, 0x00, 0x00], [0x00, 0x00, 0x00, 0x00], [0xA0, 0x86, 0x01, 0x00]] ∧
    ((writes (main quiet_env [.pos 100000]).state.trace).drop 4).map
        (fun p => (p.drop 10).take 4) =
      [[0x00, 0x00, 0x00, 0x00], [0x00, 0x00, 0x00, 0x00], [0xA0, 0x86, 0x01, 0x00]] := by
  decide

/-- C10: `update_crc` from `0` over `FF FF FD 00 00 06 00 03 40 00 00` returns
`0x67CD`, so `sendTorqueDisable` writes those bytes followed by `CD 67`; over
the id-1 torque-enable bytes `FF FF FD 00 01 06 00 03 40 00 01` it returns
`0x66DB`.  The result is a function of the initial accumulator, the size and
the first `size` bytes alone. -/
theorem update_crc_reproduces_vectors :
    update_crc 0 [0xFF, 0xFF, 0xFD, 0x00, 0x00, 0x06, 0x00, 0x03, 0x40, 0x00, 0x00] 11 =
      some 0x67CD ∧
    (∀ (env : Env) (s : State), (∀ t, env.write_returns t = true) →
      sendTorqueDisable env s = .returned { s with trace := s.trace ++
        [.write
            [0xFF, 0xFF, 0xFD, 0x00, 0x00, 0x06, 0x00, 0x03, 0x40, 0x00, 0x00, 0xCD, 0x67],
         .sleep 100, .info "Torque disabled" []] }) ∧
    update_crc 0 [0xFF, 0xFF, 0xFD, 0x00, 0x01, 0x06, 0x00, 0x03, 0x40, 0x00, 0x01] 11 =
      some 0x66DB ∧
    (∀ (c n : Nat) (data other : List Nat),
      data.take (n % 2 ^ 16) = other.take (n % 2 ^ 16) →
        update_crc c data n = update_crc c other n) :=
  ⟨by decide, fun env s hw => sendTorqueDisable_returns env s hw, by decide,
    fun c n data other h => update_crc_congr c n data other h⟩

/-- Witness for C10: `sendTorqueDisable` in `quiet_env`, and `update_crc` on
the 14-byte buffer of `sendTorqueDisable` against its first 11 bytes alone. -/
theorem update_crc_reproduces_vectors_witness :
    (∀ t, quiet_env.write_returns t = true) ∧
    sendTorqueDisable quiet_env (idle_state 0 0 0) =
      .returned { idle_state 0 0 0 with trace := (idle_state 0 0 0).trace ++
        [.write
            [0xFF, 0xFF, 0xFD, 0x00, 0x00, 0x06, 0x00, 0x03, 0x40, 0x00, 0x00, 0xCD, 0x67],
         .sleep 100, .info "Torque disabled" []] } ∧
    (config_header 0x40 0x00 ++ [0, 0, 0]).take (11 % 2 ^ 16) =
      (config_header 0x40 0x00).take (11 % 2 ^ 16) ∧
    update_crc 0 (config_header 0x40 0x00 ++ [0, 0, 0]) 11 =
      update_crc 0 (config_header 0x40 0x00) 11 :=
  ⟨fun _ => rfl,
    update_crc_reproduces_vectors.2.1 quiet_env (idle_state 0 0 0) (fun _ => rfl),
    by decide,
    update_crc_reproduces_vectors.2.2.2 0 11 _ _ (by decide)⟩

/-- C11 as stated fails on "the failure is reported": in `deaf_env` the
torque-disable write raises, the exception leaves the constructor and `main`,
and the whole trace is the log line of the opened port followed by the
raising call.  No `RCLCPP_ERROR` line and nothing else follows the failed
write: the program has no statement that reports it. -/
theorem failed_init_write_is_not_reported :
    (∃ d ∈ init_frames.take 3,
      Event.write_raised d ∈ (DynamixelController deaf_env).state.trace) ∧
    main deaf_env [.pos 100000] =
      .raised (constructed deaf_env true
        [.info "Serial port opened successfully" [],
         .write_raised (config_frame 0x40 0x00 0x67CD)]) ∧
    (∀ e ∈ (main deaf_env [.pos 100000]).state.trace, e.is_error = false) :=
  ⟨⟨config_frame 0x40 0x00 0x67CD, by decide, by decide⟩, by decide, by decide⟩

/-- C11, amended: if the write of the torque-disable, drive-mode or
operating-mode packet raises during construction, the exception leaves the
constructor and `main` uncaught and the program logs no error for it; the
trace ends with the raising call, the packets written are exactly the ones
before it, the torque-enable packet is neither written nor attempted, and
whatever notifications follow, the run and its trace are those of the
constructor. -/
theorem failed_init_write_halts (env : Env) (msgs : List Msg)
    (hfail : ∃ d ∈ init_frames.take 3,
      Event.write_raised d ∈ (DynamixelController env).state.trace) :
    ∃ k : Nat, k < 3 ∧
      (DynamixelController env).is_raised = true ∧
      main env msgs = DynamixelController env ∧
      (main env msgs).state.trace.getLast? = some (.write_raised (init_frames.getD k [])) ∧
      writes (main env msgs).state.trace = init_frames.take k ∧
      (∀ e ∈ (main env msgs).state.trace,
        e ≠ .write (config_frame 0x40 0x01 0xE7C8) ∧
        e ≠ .write_raised (config_frame 0x40 0x01 0xE7C8)) ∧
      (∀ e ∈ (main env msgs).state.trace, e.is_error = false) := by
  have key : ∀ k : Nat, k < 3 →
      DynamixelController env = .raised (constructed env true (cut_init_trace k)) →
      ∃ k : Nat, k < 3 ∧
        (DynamixelController env).is_raised = true ∧
        main env msgs = DynamixelController env ∧
        (main env msgs).state.trace.getLast? = some (.write_raised (init_frames.getD k [])) ∧
        writes (main env msgs).state.trace = init_frames.take k ∧
        (∀ e ∈ (main env msgs).state.trace,
          e ≠ .write (config_frame 0x40 0x01 0xE7C8) ∧
          e ≠ .write_raised (config_frame 0x40 0x01 0xE7C8)) ∧
        (∀ e ∈ (main env msgs).state.trace, e.is_error = false) := by
    intro k hk h
    refine ⟨k, hk, ?_⟩
    rw [main_of_raised env msgs _ h, h]
    simp only [Run.state, Run.is_raised, constructed, true_and]
    have h3 : k = 0 ∨ k = 1 ∨ k = 2 := by omega
    rcases h3 with h0 | h0 | h0 <;> subst h0 <;> decide
  have hd := DynamixelController_eq env
  obtain ⟨d, hd3, hmem⟩ := hfail
  split at hd
  · rw [hd] at hmem
    simp only [Run.state, constructed] at hmem
    exact absurd hmem (by simp)
  · split at hd
    · split at hd
      · split at hd
        · split at hd
          · split at hd
            · rw [hd] at hmem
              simp only [Run.state, constructed, init_trace] at hmem
              exact absurd hmem (by simp)
            · rw [hd] at hmem
              simp only [Run.state, constructed, cut_init_trace] at hmem
              simp only [List.mem_cons, List.mem_singleton, List.not_mem_nil, or_false,
                Event.write_raised.injEq, false_or, reduceCtorEq] at hmem
              subst hmem
              exact absurd hd3 (by decide)
          · exact key 2 (by decide) hd
        · exact key 1 (by decide) hd
      · exact key 0 (by decide) hd
    · rw [hd] at hmem
      simp only [Run.state, constructed] at hmem
      exact absurd hmem (by simp)

/-- Witness for the amended C11: in `deaf_env` the torque-disable write raises. -/
theorem failed_init_write_halts_witness :
    (∃ d ∈ init_frames.take 3,
      Event.write_raised d ∈ (DynamixelController deaf_env).state.trace) ∧
    ∃ k : Nat, k < 3 ∧
      (DynamixelController deaf_env).is_raised = true ∧
      main deaf_env [.pos 100000] = DynamixelController deaf_env ∧
      (main deaf_env [.pos 100000]).state.trace.getLast? =
        some (.write_raised (init_frames.getD k [])) ∧
      writes (main deaf_env [.pos 100000]).state.trace = init_frames.take k ∧
      (∀ e ∈ (main deaf_env [.pos 100000]).state.trace,
        e ≠ .write (config_frame 0x40 0x01 0xE7C8) ∧
        e ≠ .write_raised (config_frame 0x40 0x01 0xE7C8)) ∧
      (∀ e ∈ (main deaf_env [.pos 100000]).state.trace, e.is_error = false) :=
  ⟨⟨config_frame 0x40 0x00 0x67CD, by decide, by decide⟩,
    failed_init_write_halts deaf_env [.pos 100000]
      ⟨config_frame 0x40 0x00 0x67CD, by decide, by decide⟩⟩

/-- C12 as stated fails: in `flaky_env` the constructor's four writes return
and the first write of the burst for `acc_topic = 5` raises.  The exception
leaves the callback and `main`: the trace ends with the raising call, so the
velocity and position packets of that burst are never attempted, and the
next notification, `vel_topic = 7`, is not processed at all: nothing is
re-sent and `vel_` is still 0. -/
theorem failed_burst_write_is_fatal :
    main flaky_env [.acc 5, .vel 7] =
      .raised
        { acc_ := 5, vel_ := 0, pos_ := 0, subscribed := true,
          trace := init_trace ++ [.write_raised (sent_frame 0x6C 5)] } ∧
    main flaky_env [.acc 5, .vel 7] = main flaky_env [.acc 5] ∧
    writes (main flaky_env [.acc 5, .vel 7]).state.trace = init_frames := by
  have hc : DynamixelController flaky_env =
      .returned (constructed flaky_env true init_trace) := by
    decide
  have hu : ∀ rest : List Msg, main flaky_env (.acc 5 :: rest) =
      .raised
        { acc_ := 5, vel_ := 0, pos_ := 0, subscribed := true,
          trace := init_trace ++ [.write_raised (sent_frame 0x6C 5)] } := by
    intro rest
    rw [main_of_returned _ _ _ hc, spin_cons _ _ _ _ rfl, dispatch_eq, updateDynamixel_eq]
    have h0 : flaky_env.write_returns
        (assigned (.acc 5) (constructed flaky_env true init_trace)).trace = false := by
      decide
    rw [h0]
    rfl
  refine ⟨hu _, by rw [hu, hu], ?_⟩
  rw [hu]
  decide

/-- C12, amended: if a write raises during the update burst of a
notification, the exception leaves `updateDynamixel` and the callback; the
trace grows by the writes that returned before it and ends with the raising
call, so the failed packet is attempted once and the packets after it in the
burst are not attempted; the cached values are the ones the burst started
with; and the notifications that follow are not processed. -/
theorem failed_burst_write_ends_the_run (env : Env) (m : Msg) (rest : List Msg) (s : State)
    (hsub : s.subscribed = true) (hfail : (dispatch env m s).is_raised = true) :
    ∃ k : Nat, k < 3 ∧
      dispatch env m s =
        .raised { assigned m s with
          trace := (assigned m s).trace ++ cut_burst_events (assigned m s) k } ∧
      (dispatch env m s).state.acc_ = (assigned m s).acc_ ∧
      (dispatch env m s).state.vel_ = (assigned m s).vel_ ∧
      (dispatch env m s).state.pos_ = (assigned m s).pos_ ∧
      spin env (m :: rest) s = dispatch env m s := by
  have key : ∀ k : Nat, k < 3 →
      dispatch env m s =
        .raised { assigned m s with
          trace := (assigned m s).trace ++ cut_burst_events (assigned m s) k } →
      ∃ k : Nat, k < 3 ∧
        dispatch env m s =
          .raised { assigned m s with
            trace := (assigned m s).trace ++ cut_burst_events (assigned m s) k } ∧
        (dispatch env m s).state.acc_ = (assigned m s).acc_ ∧
        (dispatch env m s).state.vel_ = (assigned m s).vel_ ∧
        (dispatch env m s).state.pos_ = (assigned m s).pos_ ∧
        spin env (m :: rest) s = dispatch env m s := by
    intro k hk h
    refine ⟨k, hk, h, ?_, ?_, ?_, ?_⟩
    · rw [h]; rfl
    · rw [h]; rfl
    · rw [h]; rfl
    · rw [spin_cons env m rest s hsub, h]; rfl
  have hd := updateDynamixel_eq env (assigned m s)
  rw [← dispatch_eq] at hd
  split at hd
  · split at hd
    · split at hd
      · rw [hd] at hfail
        exact absurd hfail (by simp [Run.is_raised])
      · exact key 2 (by decide) hd
    · exact key 1 (by decide) hd
  · exact key 0 (by decide) hd

/-- Witness for the amended C12: the notification `acc_topic = 5` on the
constructed controller in `flaky_env`. -/
theorem failed_burst_write_ends_the_run_witness :
    (constructed flaky_env true init_trace).subscribed = true ∧
    (dispatch flaky_env (.acc 5) (constructed flaky_env true init_trace)).is_raised = true ∧
    ∃ k : Nat, k < 3 ∧
      dispatch flaky_env (.acc 5) (constructed flaky_env true init_trace) =
        .raised { assigned (.acc 5) (constructed flaky_env true init_trace) with
          trace := (assigned (.acc 5) (constructed flaky_env true init_trace)).trace ++
            cut_burst_events (assigned (.acc 5) (constructed flaky_env true init_trace)) k } ∧
      (dispatch flaky_env (.acc 5) (constructed flaky_env true init_trace)).state.acc_ =
        (assigned (.acc 5) (constructed flaky_env true init_trace)).acc_ ∧
      (dispatch flaky_env (.acc 5) (constructed flaky_env true init_trace)).state.vel_ =
        (assigned (.acc 5) (constructed flaky_env true init_trace)).vel_ ∧
      (dispatch flaky_env (.acc 5) (constructed flaky_env true init_trace)).state.pos_ =
        (assigned (.acc 5) (constructed flaky_env true init_trace)).pos_ ∧
      spin flaky_env [.acc 5, .vel 7] (constructed flaky_env true init_trace) =
        dispatch flaky_env (.acc 5) (constructed flaky_env true init_trace) :=
  ⟨rfl, by decide,
    failed_burst_write_ends_the_run flaky_env (.acc 5) [.vel 7]
      (constructed flaky_env true init_trace) rfl (by decide)⟩

/-- C13: if `serial_.open()` raises `serial::IOException`, or returns with
`isOpen()` false, the constructor returns before creating a subscription and
before the initialization sequence: whatever notifications follow, the run is
that of the constructor, its trace is the error log line and the shutdown,
and no write is made or attempted. -/
theorem failed_open_writes_nothing (env : Env) (msgs : List Msg)
    (hfail : env.open_raises = true ∨ env.is_open = false) :
    main env msgs = DynamixelController env ∧
    (main env msgs).state.subscribed = false ∧
    ((main env msgs).state.trace = [.error "Unable to open port", .shutdown] ∨
      (main env msgs).state.trace = [.error "Failed to open serial port", .shutdown]) ∧
    writes (main env msgs).state.trace = [] ∧
    (∀ e ∈ (main env msgs).state.trace, ∀ d : List Nat,
      e ≠ .write d ∧ e ≠ .write_raised d) := by
  have key : ∀ t : List Event,
      (t = [.error "Unable to open port", .shutdown] ∨
        t = [.error "Failed to open serial port", .shutdown]) →
      DynamixelController env = .returned (constructed env false t) →
      main env msgs = DynamixelController env ∧
      (main env msgs).state.subscribed = false ∧
      ((main env msgs).state.trace = [.error "Unable to open port", .shutdown] ∨
        (main env msgs).state.trace = [.error "Failed to open serial port", .shutdown]) ∧
      writes (main env msgs).state.trace = [] ∧
      (∀ e ∈ (main env msgs).state.trace, ∀ d : List Nat,
        e ≠ .write d ∧ e ≠ .write_raised d) := by
    intro t ht h
    rw [main_of_returned env msgs _ h, spin_unsubscribed env msgs _ rfl, h]
    refine ⟨rfl, rfl, ht, ?_, ?_⟩
    · rcases ht with ht | ht <;> subst ht <;> rfl
    · intro e he d
      rcases ht with ht | ht <;> subst ht <;>
        simp only [Run.state, constructed, List.mem_cons, List.mem_singleton,
          List.not_mem_nil, or_false] at he <;>
        rcases he with he | he <;> subst he <;> simp
  have hd := DynamixelController_eq env
  rcases hfail with h | h
  · rw [h] at hd
    exact key _ (Or.inl rfl) hd
  · cases ho : env.open_raises
    · rw [ho, h] at hd
      exact key _ (Or.inr rfl) hd
    · rw [ho] at hd
      exact key _ (Or.inl rfl) hd

/-- Witness for C13: an environment in which `open()` raises. -/
theorem failed_open_writes_nothing_witness :
    (({ quiet_env with open_raises := true } : Env).open_raises = true ∨
      ({ quiet_env with open_raises := true } : Env).is_open = false) ∧
    writes (main { quiet_env with open_raises := true } [.pos 100000]).state.trace = [] :=
  ⟨Or.inl rfl,
    (failed_open_writes_nothing { quiet_env with open_raises := true } [.pos 100000]
      (Or.inl rfl)).2.2.2.1⟩

/-- C14: on any transport the writes of a run are the first `k` of the four
initialization packets followed by motion-register packets only, and a
motion-register packet is there only when all four initialization packets were
written before it; the initialization packets address configuration
registers and the packets after them do not.  When the port opens and the
transport accepts the writes, the writes are exactly the four initialization
packets followed by one complete three-packet burst per notification, in
arrival order. -/
theorem update_writes_only_after_configuration (env : Env) (msgs : List Msg) :
    (∃ (k : Nat) (ms : List (List Nat)), k ≤ 4 ∧
      writes (main env msgs).state.trace = init_frames.take k ++ ms ∧
      (∀ p ∈ ms, is_motion_write p = true ∧ is_config_write p = false) ∧
      (ms ≠ [] → k = 4)) ∧
    (∀ p ∈ init_frames, is_config_write p = true ∧ is_motion_write p = false) ∧
    (env.open_raises = false → env.is_open = true → (∀ t, env.write_returns t = true) →
      (main env msgs).is_raised = false ∧
      writes (main env msgs).state.trace =
        init_frames ++ bursts (env.acc_storage, env.vel_storage, env.pos_storage) msgs ∧
      (bursts (env.acc_storage, env.vel_storage, env.pos_storage) msgs).length =
        3 * msgs.length) := by
  refine ⟨?_, by decide, ?_⟩
  · obtain ⟨-, k, ms, hk, hw, hm, hlast⟩ := main_shape env msgs
    exact ⟨k, ms, hk, hw, fun p hp => ⟨hm p hp, motion_is_not_config p (hm p hp)⟩, hlast⟩
  · intro ho hi hw
    rw [main_of_returned env msgs _ (DynamixelController_returns env ho hi hw)]
    obtain ⟨h1, -, h3⟩ := spin_writes env hw msgs
      { acc_ := env.acc_storage, vel_ := env.vel_storage, pos_ := env.pos_storage,
        subscribed := true, trace := init_trace } rfl
    exact ⟨h1, by rw [h3]; rfl, bursts_length msgs _⟩

/-- Witness for C14: the run of `quiet_env` with the notifications
`pos_topic = 100000` and `acc_topic = 7`. -/
theorem update_writes_only_after_configuration_witness :
    quiet_env.open_raises = false ∧ quiet_env.is_open = true ∧
    (∀ t, quiet_env.write_returns t = true) ∧
    writes (main quiet_env [.pos 100000, .acc 7]).state.trace =
      init_frames ++
        bursts (quiet_env.acc_storage, quiet_env.vel_storage, quiet_env.pos_storage)
          [.pos 100000, .acc 7] :=
  ⟨rfl, rfl, fun _ => rfl,
    ((update_writes_only_after_configuration quiet_env [.pos 100000, .acc 7]).2.2
      rfl rfl (fun _ => rfl)).2.1⟩

/-- C15: on any transport, `acc_callback` with value `v` is one call of
`updateDynamixel` on the state with `acc_` set to `v`, and it ends with
`acc_ = v` and `vel_`, `pos_` as before; likewise `vel_callback` for `vel_`
and `pos_callback` for `pos_` (which logs the value first); `updateDynamixel`
itself leaves all three registers as they were.  When the transport accepts
the writes, the callback appends exactly one complete burst to the trace. -/
theorem callbacks_assign_their_own_axis (env : Env) (s : State) (v : Int) :
    (acc_callback env v s = updateDynamixel env { s with acc_ := v } ∧
      (acc_callback env v s).state.acc_ = v ∧ (acc_callback env v s).state.vel_ = s.vel_ ∧
      (acc_callback env v s).state.pos_ = s.pos_) ∧
    (vel_callback env v s = updateDynamixel env { s with vel_ := v } ∧
      (vel_callback env v s).state.acc_ = s.acc_ ∧ (vel_callback env v s).state.vel_ = v ∧
      (vel_callback env v s).state.pos_ = s.pos_) ∧
    (pos_callback env v s =
        updateDynamixel env
          (emit (.info "Received position command: %d" [v]) { s with pos_ := v }) ∧
      (pos_callback env v s).state.acc_ = s.acc_ ∧ (pos_callback env v s).state.vel_ = s.vel_ ∧
      (pos_callback env v s).state.pos_ = v) ∧
    ((updateDynamixel env s).state.acc_ = s.acc_ ∧ (updateDynamixel env s).state.vel_ = s.vel_ ∧
      (updateDynamixel env s).state.pos_ = s.pos_) ∧
    ((∀ t, env.write_returns t = true) →
      (acc_callback env v s).state.trace = s.trace ++ burst_events { s with acc_ := v } ∧
      (vel_callback env v s).state.trace = s.trace ++ burst_events { s with vel_ := v } ∧
      (pos_callback env v s).state.trace =
        s.trace ++ [.info "Received position command: %d" [v]] ++
          burst_events { s with pos_ := v }) := by
  have ha : acc_callback env v s = updateDynamixel env { s with acc_ := v } := rfl
  have hv : vel_callback env v s = updateDynamixel env { s with vel_ := v } := rfl
  have hp : pos_callback env v s =
      updateDynamixel env
        (emit (.info "Received position command: %d" [v]) { s with pos_ := v }) := rfl
  obtain ⟨a1, a2, a3, -, -⟩ := updateDynamixel_registers env { s with acc_ := v }
  obtain ⟨v1, v2, v3, -, -⟩ := updateDynamixel_registers env { s with vel_ := v }
  obtain ⟨p1, p2, p3, -, -⟩ := updateDynamixel_registers env
    (emit (.info "Received position command: %d" [v]) { s with pos_ := v })
  obtain ⟨u1, u2, u3, -, -⟩ := updateDynamixel_registers env s
  refine ⟨⟨ha, ?_, ?_, ?_⟩, ⟨hv, ?_, ?_, ?_⟩, ⟨hp, ?_, ?_, ?_⟩, ⟨u1, u2, u3⟩, ?_⟩
  · rw [ha]; exact a1
  · rw [ha]; exact a2
  · rw [ha]; exact a3
  · rw [hv]; exact v1
  · rw [hv]; exact v2
  · rw [hv]; exact v3
  · rw [hp]; exact p1
  · rw [hp]; exact p2
  · rw [hp]; exact p3
  · intro hw
    rw [ha, hv, hp, updateDynamixel_accepted env _ hw, updateDynamixel_accepted env _ hw,
      updateDynamixel_accepted env _ hw]
    exact ⟨rfl, rfl, rfl⟩

/-- Witness for C15: the three callbacks with value 42 on a controller caching
`(1, 2, 3)` in `quiet_env`. -/
theorem callbacks_assign_their_own_axis_witness :
    (∀ t, quiet_env.write_returns t = true) ∧
    (acc_callback quiet_env 42 (idle_state 1 2 3)).state.trace =
      (idle_state 1 2 3).trace ++ burst_events { idle_state 1 2 3 with acc_ := 42 } ∧
    (vel_callback quiet_env 42 (idle_state 1 2 3)).state.trace =
      (idle_state 1 2 3).trace ++ burst_events { idle_state 1 2 3 with vel_ := 42 } ∧
    (pos_callback quiet_env 42 (idle_state 1 2 3)).state.trace =
      (idle_state 1 2 3).trace ++ [.info "Received position command: %d" [42]] ++
        burst_events { idle_state 1 2 3 with pos_ := 42 } :=
  ⟨fun _ => rfl,
    (callbacks_assign_their_own_axis quiet_env (idle_state 1 2 3) 42).2.2.2.2
      (fun _ => rfl)⟩

/-- C17 as stated fails for a sequence too long for the `uint16_t` size
parameter: for 65536 zero bytes the size arrives as 0, so `update_crc`
returns the accumulator `0` both for the sequence and for the sequence with
bit 0 of its first byte inverted. -/
theorem update_crc_misses_flip_in_long_sequence :
    flip_bit (List.replicate 65536 0) 0 0 ≠ List.replicate 65536 0 ∧
    update_crc 0 (flip_bit (List.replicate 65536 0) 0 0)
        (flip_bit (List.replicate 65536 0) 0 0).length =
      update_crc 0 (List.replicate 65536 0) (List.replicate 65536 0).length := by
  constructor
  · exact flip_bit_ne _ 0 0 (by rw [List.length_replicate]; decide)
  · rw [flip_bit_length, List.length_replicate,
      update_crc_size_wraps 0 65536 _ (by decide), update_crc_size_wraps 0 65536 _ (by decide)]

/-- C17, amended: for every sequence of bytes of length below `2 ^ 16`,
inverting any one bit of any one byte changes what `update_crc` returns from
`0`.  Hence, on any transport, for every packet written by the constructor or
by an update burst, inverting any one bit among the bytes before the CRC
gives a packet whose last two bytes are no longer the CRC of the bytes before
them. -/
theorem single_bit_flip_changes_crc :
    (∀ (m : List Nat) (i j : Nat), (∀ b ∈ m, b < 256) → m.length < 2 ^ 16 →
      i < m.length → j < 8 →
      flip_bit m i j ≠ m ∧
      update_crc 0 (flip_bit m i j) (flip_bit m i j).length ≠ update_crc 0 m m.length) ∧
    (∀ (env : Env) (acc vel pos : Int) (p : List Nat) (i j : Nat),
      (p ∈ writes (DynamixelController env).state.trace ∨
        p ∈ writes (updateDynamixel env (idle_state acc vel pos)).state.trace) →
      i < p.length - 2 → j < 8 →
      ¬ ∃ crc : Nat,
        update_crc 0 ((flip_bit p i j).take (p.length - 2)) (p.length - 2) = some crc ∧
        (flip_bit p i j).drop (p.length - 2) = [crc % 256, crc / 256]) := by
  constructor
  · intro m i j hb hn hi hj
    refine ⟨flip_bit_ne m i j hi, ?_⟩
    rw [flip_bit_length]
    exact update_crc_flip_bit m hb hn i j hi hj
  · intro env acc vel pos p i j hp hi hj
    rcases hp with hp | hp
    · obtain ⟨h1, h2, h3, c0, h4, -, h6⟩ :=
        init_frames_facts p (construction_writes_subset env p hp)
      exact flipped_frame_mismatch p c0 h1 h2 h3 h4 h6 i j hi hj
    · have hp := burst_writes_subset env acc vel pos p hp
      simp only [List.mem_cons, List.mem_singleton, List.not_mem_nil, or_false] at hp
      rcases hp with h | h | h
      · obtain ⟨h1, h2, h3, c0, h4, -, h6⟩ := sent_frame_facts 0x6C acc (by decide)
        subst h
        exact flipped_frame_mismatch _ c0 h1 h2 h3 h4 h6 i j hi hj
      · obtain ⟨h1, h2, h3, c0, h4, -, h6⟩ := sent_frame_facts 0x70 vel (by decide)
        subst h
        exact flipped_frame_mismatch _ c0 h1 h2 h3 h4 h6 i j hi hj
      · obtain ⟨h1, h2, h3, c0, h4, -, h6⟩ := sent_frame_facts 0x74 pos (by decide)
        subst h
        exact flipped_frame_mismatch _ c0 h1 h2 h3 h4 h6 i j hi hj

/-- Witness for the amended C17: bit 3 of byte 8 (the address) of the first
11 bytes of the torque-disable write. -/
theorem single_bit_flip_changes_crc_witness :
    (∀ b ∈ config_header 0x40 0x00, b < 256) ∧ (config_header 0x40 0x00).length < 2 ^ 16 ∧
    8 < (config_header 0x40 0x00).length ∧ 3 < 8 ∧
    update_crc 0 (flip_bit (config_header 0x40 0x00) 8 3)
        (flip_bit (config_header 0x40 0x00) 8 3).length ≠
      update_crc 0 (config_header 0x40 0x00) (config_header 0x40 0x00).length :=
  ⟨by decide, by decide, by decide, by decide,
    (single_bit_flip_changes_crc.1 (config_header 0x40 0x00) 8 3 (by decide) (by decide)
      (by decide) (by decide)).2⟩

/-- C18 as stated fails when the two sequences together are too long for the
`uint16_t` size parameter: for 65535 zero bytes and then the byte `1`, feeding
the two pieces one after the other gives `0x8005`, while one call on the
concatenation receives the size 65536 as 0 and returns the accumulator `0`. -/
theorem update_crc_long_append_differs :
    (update_crc 0 (List.replicate 65535 0) (List.replicate 65535 0).length).bind
        (fun first_crc => update_crc first_crc [1] [1].length) = some 0x8005 ∧
    update_crc 0 (List.replicate 65535 0 ++ [1]) (List.replicate 65535 0 ++ [1]).length =
      some 0 := by
  constructor
  · rw [List.length_replicate, update_crc_zeros 65535 (by decide)]
    decide
  · rw [List.length_append, List.length_replicate, List.length_singleton]
    exact update_crc_size_wraps 0 (65535 + 1) _ (by decide)

/-- C18, amended: for every 16-bit accumulator `c` and all sequences `a`, `b`
whose lengths add up to less than `2 ^ 16`, running `update_crc` over `a` and
then, from the accumulator it returns, over `b` gives what one run over
`a ++ b` gives; and `update_crc` over the empty sequence returns `c`. -/
theorem update_crc_is_incremental (c : Nat) (a b : List Nat) (hc : c < 2 ^ 16)
    (hn : a.length + b.length < 2 ^ 16) :
    (update_crc c a a.length).bind (fun first_crc => update_crc first_crc b b.length) =
      update_crc c (a ++ b) (a ++ b).length ∧
    (update_crc c (a ++ b) (a ++ b).length).isSome = true ∧
    update_crc c [] 0 = some c := by
  refine ⟨update_crc_append c a b hc hn, ?_, ?_⟩
  · exact update_crc_in_range c _ _ (Nat.mod_le _ _)
  · rw [update_crc_size_wraps c 0 [] (by decide), Nat.mod_eq_of_lt hc]

/-- Witness for the amended C18: the torque-disable bytes split after the
length field. -/
theorem update_crc_is_incremental_witness :
    (0 : Nat) < 2 ^ 16 ∧
    ([0xFF, 0xFF, 0xFD, 0x00, 0x00, 0x06, 0x00] : List Nat).length +
      ([0x03, 0x40, 0x00, 0x00] : List Nat).length < 2 ^ 16 ∧
    (update_crc 0 [0xFF, 0xFF, 0xFD, 0x00, 0x00, 0x06, 0x00]
        ([0xFF, 0xFF, 0xFD, 0x00, 0x00, 0x06, 0x00] : List Nat).length).bind
      (fun first_crc => update_crc first_crc [0x03, 0x40, 0x00, 0x00]
        ([0x03, 0x40, 0x00, 0x00] : List Nat).length) =
      update_crc 0 ([0xFF, 0xFF, 0xFD, 0x00, 0x00, 0x06, 0x00] ++ [0x03, 0x40, 0x00, 0x00])
        ([0xFF, 0xFF, 0xFD, 0x00, 0x00, 0x06, 0x00] ++ [0x03, 0x40, 0x00, 0x00]).length :=
  ⟨by decide, by decide,
    (update_crc_is_incremental 0 [0xFF, 0xFF, 0xFD, 0x00, 0x00, 0x06, 0x00]
      [0x03, 0x40, 0x00, 0x00] (by decide) (by decide)).1⟩

/-- C19: in `update_crc` the table index is below 256, hence inside the
table, for every accumulator and data byte; `update_crc` reads inside its
buffer whenever the block size does not exceed the buffer length (and the
embedding reports an over-read otherwise, as it reports a store outside the
array).  No call site indexes out of range, on any transport and for any
input: building a 16-byte motion buffer (stores at 10..13, CRC over 14 bytes,
stores at 14 and 15) succeeds for every value; none of the four
initialization functions (CRC over 11 bytes of a 14-byte buffer, stores at 11
and 12, 13 bytes written), nor `updateDynamixel` (16 bytes written from a
16-byte buffer), nor a whole run ends in an out-of-range access. -/
theorem no_array_access_out_of_range :
    (∀ c b : Nat, ((((c >>> 8) % 2 ^ 16) ^^^ b) &&& 0xFF) % 2 ^ 16 < 256 ∧
      (crc_table[((((c >>> 8) % 2 ^ 16) ^^^ b) &&& 0xFF) % 2 ^ 16]?).isSome = true) ∧
    (∀ (c n : Nat) (data : List Nat), n % 2 ^ 16 ≤ data.length →
      (update_crc c data n).isSome = true) ∧
    (∀ (c n : Nat) (data : List Nat), data.length < n % 2 ^ 16 →
      update_crc c data n = none) ∧
    (∀ (buf : List Nat) (k v : Nat), (store buf k v).isSome = true ↔ k < buf.length) ∧
    (∀ (address : Nat) (v : Int), ∃ p : List Nat,
      motion_buffer
          [0xFF, 0xFF, 0xFD, 0x00, 0x00, 0x09, 0x00, 0x03, address, 0x00, 0, 0, 0, 0, 0, 0] v =
        some p ∧ p.length = 16) ∧
    (∀ (env : Env) (s : State),
      (sendTorqueDisable env s).is_fault = false ∧ (setDriveMode env s).is_fault = false ∧
      (setOperatingMode env s).is_fault = false ∧ (sendTorqueEnable env s).is_fault = false ∧
      (updateDynamixel env s).is_fault = false) ∧
    (∀ (env : Env) (msgs : List Msg), (main env msgs).is_fault = false) := by
  refine ⟨?_, update_crc_in_range, update_crc_overrun, ?_, ?_, ?_, ?_⟩
  · intro c b
    have h := crc_index_lt ((c >>> 8) % 2 ^ 16) b
    refine ⟨h, ?_⟩
    rw [List.getElem?_eq_getElem (by rw [crc_table_length]; exact h)]
    rfl
  · intro buf k v
    unfold store
    by_cases h : k < buf.length <;> simp [h]
  · intro address v
    exact ⟨_, motion_buffer_sent address v, sent_frame_length address v⟩
  · intro env s
    obtain ⟨h1, h2, h3, h4⟩ := init_functions_no_fault env s
    exact ⟨h1, h2, h3, h4, (updateDynamixel_registers env s).2.2.2.2⟩
  · intro env msgs
    exact (main_shape env msgs).1

/-- Witness for C19: the 14-byte buffer of `sendTorqueDisable` with block
size 11. -/
theorem no_array_access_out_of_range_witness :
    11 % 2 ^ 16 ≤ (config_header 0x40 0x00 ++ [0, 0, 0]).length ∧
    (update_crc 0 (config_header 0x40 0x00 ++ [0, 0, 0]) 11).isSome = true :=
  ⟨by decide,
    no_array_access_out_of_range.2.1 0 11 (config_header 0x40 0x00 ++ [0, 0, 0]) (by decide)⟩

end Dynamixel
